import Mathlib

/-! Shallow embedding of the klaudbiusz container-backed evaluation and
generation harness: `cli/utils/docker_workspace.py`,
`cli/utils/ts_workspace_docker.py`, `cli/evaluation/evaluate_app_docker.py`
and `cli/generation/dagger_run.py`.  Host calls (subprocess, the Dagger
backend, the LLM checks) are modelled as oracles; the control flow, state
updates and exception handling are translated from the source.  Each run is
instrumented with an event trace recording which steps were invoked, so that
gating and cleanup guarantees can be stated. -/

namespace Klaudbiusz

/-- Modelled from the spec: `ExecResult`, defined in `cli/utils/dagger_utils.py`
(not among the provided sources): "outcome of one command executed inside a
Sandbox. Attributes: integer exit code, captured standard-output text, captured
standard-error text." -/
structure ExecResult where
  exit_code : Int
  stdout : String
  stderr : String
deriving DecidableEq, Repr

/-- Outcome of one host-side `subprocess.run` call: the process completed with
a return code and captured output, or the per-call timeout expired (in Python,
`subprocess.TimeoutExpired` is raised). -/
inductive SubprocessOutcome
  | completed (returncode : Int) (stdout stderr : String)
  | timedOut
deriving DecidableEq, Repr

/-- The exit code that `DockerWorkspace.exec` reports for a given subprocess
outcome (the completed code, or 124 on timeout). -/
def SubprocessOutcome.exitCode : SubprocessOutcome → Int
  | SubprocessOutcome.completed rc _ _ => rc
  | SubprocessOutcome.timedOut => 124

/-- Python call outcome: the call returns a value or raises an exception
carrying a message. -/
inductive PyResult (α : Type)
  | ok (a : α)
  | exn (msg : String)
deriving DecidableEq, Repr

/-- Python string slicing from the left, `s[:n]`. -/
def pyTrunc (n : Nat) (s : String) : String := s.take n

/-- Structural substring containment on character lists. -/
def substrList (pat : List Char) : List Char → Bool
  | [] => pat.isEmpty
  | c :: rest => pat.isPrefixOf (c :: rest) || substrList pat rest

/-- Python substring test `pat in s`, on the underlying character lists. -/
def pyIn (pat s : String) : Bool := substrList pat.data s.data

/-- Python `s.lower()` on a character list. -/
def pyLower (cs : List Char) : List Char := cs.map Char.toLower

/-- Helper for `splitOnChar`: accumulate the current (reversed) segment. -/
def splitOnCharAux (sep : Char) : List Char → List Char → List (List Char)
  | [], acc => [acc.reverse]
  | c :: rest, acc =>
    if c = sep then acc.reverse :: splitOnCharAux sep rest []
    else splitOnCharAux sep rest (c :: acc)

/-- Python `s.split(sep)` for a one-character separator. -/
def splitOnChar (sep : Char) (cs : List Char) : List (List Char) :=
  splitOnCharAux sep cs []

/-- Python `s.strip()`: drop leading and trailing whitespace. -/
def pyStrip (cs : List Char) : List Char :=
  ((cs.dropWhile Char.isWhitespace).reverse.dropWhile Char.isWhitespace).reverse

/-- `DockerWorkspace.__init__` state (cli/utils/docker_workspace.py lines
22-25): container id, container name, working directory. -/
structure DockerWorkspace where
  container_id : String
  container_name : String
  workdir : String := "/app"
deriving DecidableEq, Repr

/-- The argv that `DockerWorkspace.exec` passes to `subprocess.run`
(cli/utils/docker_workspace.py lines 105-109). -/
def dockerExecArgv (ws : DockerWorkspace) (command : List String) (cwd : Option String) : List String :=
  ["docker", "exec", "-w", cwd.getD ws.workdir, ws.container_id] ++ command

/-- One `docker exec` invocation issued to the host: argv plus timeout. -/
structure ExecCall where
  argv : List String
  timeout : Nat
deriving DecidableEq, Repr

/-- `DockerWorkspace.exec` (cli/utils/docker_workspace.py lines 87-128): runs
the command through `docker exec`; a completed process yields its exit code
and captured output, and `subprocess.TimeoutExpired` is caught and converted
to exit code 124 with empty stdout and a timeout message.  `step` is the host
subprocess semantics over an abstract host/container state `σ`; the third
component is the trace of docker-exec calls made (exactly one here). -/
def DockerWorkspace.exec {σ : Type} (step : σ → List String → Nat → SubprocessOutcome × σ)
    (s : σ) (ws : DockerWorkspace) (command : List String)
    (cwd : Option String) (timeout : Nat) : ExecResult × σ × List ExecCall :=
  let argv := dockerExecArgv ws command cwd
  match step s argv timeout with
  | (SubprocessOutcome.completed rc out err, s2) =>
    ({ exit_code := rc, stdout := out, stderr := err }, s2, [{ argv := argv, timeout := timeout }])
  | (SubprocessOutcome.timedOut, s2) =>
    ({ exit_code := 124, stdout := "",
       stderr := "Command timed out after " ++ toString timeout ++ "s" }, s2,
     [{ argv := argv, timeout := timeout }])

/-- `run_tests` (cli/utils/ts_workspace_docker.py lines 119-132): a first exec
session running `sh -c "export TEST_PORT=<port>"` (default timeout 300), then
the `bash /eval/test.sh` session (timeout 180) whose result is returned.  The
trace collects both docker-exec calls in order. -/
def run_tests {σ : Type} (step : σ → List String → Nat → SubprocessOutcome × σ)
    (s : σ) (ws : DockerWorkspace) (test_port : Nat) : ExecResult × σ × List ExecCall :=
  let r1 := DockerWorkspace.exec step s ws ["sh", "-c", "export TEST_PORT=" ++ toString test_port] none 300
  let r2 := DockerWorkspace.exec step r1.2.1 ws ["bash", "/eval/test.sh"] none 180
  (r2.1, r2.2.1, r1.2.2 ++ r2.2.2)

/-- `DockerWorkspace.cleanup` (cli/utils/docker_workspace.py lines 168-178):
`docker rm -f` wrapped in try/except Exception; both a completed removal (any
exit code, ignored) and a raised exception (for instance the 30s subprocess
timeout) end with a log line only.  The returned exception channel is the
function's raise behaviour: it is always `none`. -/
def DockerWorkspace.cleanup (rmOutcome : SubprocessOutcome) : Option String :=
  match rmOutcome with
  | SubprocessOutcome.completed _ _ _ => none
  | SubprocessOutcome.timedOut => none

/-- Host-call outcomes feeding one `DockerWorkspace.create` run: the
`docker run -d` subprocess (timeout 60; expiry raises `TimeoutExpired`,
uncaught there) and the in-container setup exec (`apk add`), which never
raises. -/
structure CreateBehavior where
  runOutcome : SubprocessOutcome
  setupOutcome : SubprocessOutcome
deriving DecidableEq, Repr

/-- Events observable during `DockerWorkspace.create`. -/
inductive CreateEvent
  | containerStarted
  | cleanupCalled
deriving DecidableEq, Repr

/-- `DockerWorkspace.create` (cli/utils/docker_workspace.py lines 27-85):
start the container with `docker run -d`; a non-zero return code raises
RuntimeError with the captured stderr; otherwise the workspace object is
built from the trimmed stdout and the setup command
`apk add --no-cache bash curl` is executed; if it exits non-zero the freshly
created container is cleaned up and a RuntimeError is raised.  Returns the
result and the event trace of the call. -/
def DockerWorkspace.create (app_dir_name : String) (port : Nat) (uuidHex : String)
    (cb : CreateBehavior) : PyResult DockerWorkspace × List CreateEvent :=
  let container_name := "eval-" ++ app_dir_name ++ "-" ++ toString port ++ "-" ++ uuidHex
  match cb.runOutcome with
  | SubprocessOutcome.timedOut => (PyResult.exn "TimeoutExpired", [])
  | SubprocessOutcome.completed rc out err =>
    if rc != 0 then
      (PyResult.exn ("Failed to start container: " ++ err), [])
    else
      let ws : DockerWorkspace :=
        { container_id := out.trim, container_name := container_name, workdir := "/app" }
      let setup := (DockerWorkspace.exec (fun u _ _ => (cb.setupOutcome, u)) () ws
        ["apk", "add", "--no-cache", "bash", "curl"] none 300).1
      if setup.exit_code != 0 then
        (PyResult.exn ("Failed to install dependencies: " ++ setup.stderr),
         [CreateEvent.containerStarted, CreateEvent.cleanupCalled])
      else
        (PyResult.ok ws, [CreateEvent.containerStarted])

/-- Modelled from the spec: `GenerationMetrics` (cli/generation/codegen.py, not
among the provided sources): cost_usd, input_tokens, output_tokens, turns. -/
structure GenerationMetrics where
  cost_usd : Rat
  input_tokens : Nat
  output_tokens : Nat
  turns : Nat
deriving DecidableEq, Repr

/-- The possible outcomes of one `_run_generation` call
(cli/generation/dagger_run.py lines 107-168) as observed by `run_with_sem`:
the artifact directory was exported (with the optionally parsed
generation_metrics.json), the backend reported the artifact directory missing
after the agent run (the valid no-artifact outcome, returned as
`(None, log_file, None)`), or an exception was raised. -/
inductive GenOutcome
  | exported (metrics : Option GenerationMetrics)
  | noArtifact
  | raised (msg : String)
deriving DecidableEq, Repr

/-- Per-item oracle for one bulk-generation worker: the generation outcome and
whether the item's log file exists on the host (consulted in the error
branch). -/
structure GenItemBehavior where
  outcome : GenOutcome
  logExists : Bool
deriving DecidableEq, Repr

/-- One entry of the list `generate_bulk` returns:
`(app_name, app_dir, log_file, metrics, error)`. -/
structure GenTuple where
  app_name : String
  app_dir : Option String
  log_file : Option String
  metrics : Option GenerationMetrics
  error : Option String
deriving DecidableEq, Repr

/-- `run_with_sem` (cli/generation/dagger_run.py lines 203-218): runs one
generation under the semaphore; on normal return it fires
`on_complete(app_name, True)` and returns the produced tuple, and any
exception is caught, fires `on_complete(app_name, False)` and is stored as the
item's error string.  The second component is the list of on_complete
invocations this item performed. -/
def run_with_sem (output_dir app_name : String) (ib : GenItemBehavior) :
    GenTuple × List (String × Bool) :=
  let log_path := output_dir ++ "/logs/" ++ app_name ++ ".log"
  match ib.outcome with
  | GenOutcome.exported m =>
    ({ app_name := app_name, app_dir := some (output_dir ++ "/" ++ app_name),
       log_file := some log_path, metrics := m, error := none }, [(app_name, true)])
  | GenOutcome.noArtifact =>
    ({ app_name := app_name, app_dir := none, log_file := some log_path,
       metrics := none, error := none }, [(app_name, true)])
  | GenOutcome.raised e =>
    ({ app_name := app_name, app_dir := none,
       log_file := if ib.logExists then some log_path else none,
       metrics := none, error := some e }, [(app_name, false)])

/-- Whether `run_with_sem` reports success to on_complete for a given
generation outcome (only a raised exception reports failure). -/
def genSuccess : GenOutcome → Bool
  | GenOutcome.raised _ => false
  | _ => true

/-- `DaggerAppGenerator.generate_bulk` (cli/generation/dagger_run.py lines
170-221): one `run_with_sem` task per prompt, gathered in input order.
Returns the list of per-item tuples and the concatenated on_complete
invocation log. -/
def generate_bulk (output_dir : String) (items : List (String × GenItemBehavior)) :
    List GenTuple × List (String × Bool) :=
  let results := items.map (fun it => run_with_sem output_dir it.1 it.2)
  (results.map Prod.fst, (results.map Prod.snd).flatten)

/-- Numeric value of a digit list, most significant first. -/
def digitsVal (cs : List Char) : Nat :=
  cs.foldl (fun a c => a * 10 + (c.toNat - 48)) 0

/-- Model of Python `float(s)` restricted to finite decimal literals, parsing
stage: optional surrounding whitespace (stripped, as Python does), optional
sign, digits with an optional fractional part, optional exponent.  Returns
the signed mantissa read without the decimal point, the number of fractional
digits, and the exponent; `none` where Python raises ValueError. -/
def pyFloatParts (s : List Char) : Option (Int × Nat × Int) :=
  let cs := pyStrip s
  let signRest : Int × List Char :=
    match cs with
    | '+' :: r => (1, r)
    | '-' :: r => (-1, r)
    | _ => (1, cs)
  let cs1 := signRest.2
  let mantPart := cs1.takeWhile (fun c => c != 'e' && c != 'E')
  let expPart := cs1.dropWhile (fun c => c != 'e' && c != 'E')
  let expVal : Option Int :=
    match expPart with
    | [] => some 0
    | _ :: r =>
      let esignRest : Int × List Char :=
        match r with
        | '+' :: q => (1, q)
        | '-' :: q => (-1, q)
        | _ => (1, r)
      if !esignRest.2.isEmpty && esignRest.2.all Char.isDigit then
        some (esignRest.1 * (digitsVal esignRest.2 : Int))
      else none
  let intPart := mantPart.takeWhile (fun c => c != '.')
  let dotRest := mantPart.dropWhile (fun c => c != '.')
  let fracPart : Option (List Char) :=
    match dotRest with
    | [] => some []
    | _ :: q => if q.all Char.isDigit then some q else none
  match fracPart, expVal with
  | some frac, some e =>
    if intPart.all Char.isDigit && (!intPart.isEmpty || !frac.isEmpty) then
      some (signRest.1 * ((digitsVal intPart * 10 ^ frac.length + digitsVal frac : Nat) : Int),
        frac.length, e)
    else none
  | _, _ => none

/-- The rational value of a parsed float: mantissa over ten to the number of
fractional digits, scaled by the exponent. -/
def pyFloatVal (p : Int × Nat × Int) : Rat :=
  let base : Rat := (p.1 : Rat) / (10 : Rat) ^ p.2.1
  if 0 ≤ p.2.2 then base * (10 : Rat) ^ p.2.2.toNat else base / (10 : Rat) ^ (-p.2.2).toNat

/-- Python `float(s)` as an optional rational. -/
def pyFloat (s : List Char) : Option Rat := (pyFloatParts s).map pyFloatVal

/-- The coverage value one line of test output contributes
(evaluate_app_docker.py lines 165-172): the line must contain "all files"
case-insensitively and "%", it is split on "|", and field 1 is stripped, has
"%" removed (a one-character replace is a filter), and parsed as a float;
`none` when the line does not match or the parse raises (the caught
ValueError). -/
def coverageOfLine (line : List Char) : Option Rat :=
  if substrList ("all files".data) (pyLower line) && substrList ("%".data) line then
    let parts := splitOnChar '|' line
    if parts.length ≥ 2 then
      pyFloat ((pyStrip parts[1]!).filter (fun c => c != '%'))
    else none
  else none

/-- The coverage-parsing loop of the test step (evaluate_app_docker.py lines
163-172): fold over the output lines starting from 0.0, keeping the previous
value whenever a line does not match or fails to parse. -/
def parseCoverage (output : String) : Rat :=
  (splitOnChar '\n' output.data).foldl (fun acc line => (coverageOfLine line).getD acc) 0

/-- Modelled from the spec: the Metrics record (`FullMetrics` in
`cli/evaluation/evaluate_app.py`, not among the provided sources): "Fields,
each independently optional/nullable because later checks may never run",
null until set. -/
structure FullMetrics where
  build_success : Option Bool := none
  build_time_sec : Option Rat := none
  runtime_success : Option Bool := none
  startup_time_sec : Option Rat := none
  type_safety : Option Bool := none
  tests_pass : Option Bool := none
  test_coverage_pct : Option Rat := none
  has_tests : Option Bool := none
  databricks_connectivity : Option Bool := none
  data_returned : Option Bool := none
  ui_renders : Option Bool := none
  local_runability_score : Option Nat := none
  deployability_score : Option Nat := none
  template_type : String := "unknown"
  has_dockerfile : Option Bool := none
  appeval_100 : Option Rat := none
deriving DecidableEq, Repr

/-- Modelled from the spec: `EvalResult` (`cli/evaluation/evaluate_app.py`,
not among the provided sources): application name, directory, timestamp, the
Metrics record, the ordered issue strings and the details mapping. -/
structure EvalResult where
  app_name : String
  app_dir : String
  timestamp : String
  metrics : FullMetrics
  issues : List String
  details : List (String × String)
deriving DecidableEq, Repr

/-- Events observable during one `evaluate_app_docker` run: each check-step
invocation plus the container cleanup performed in the finally block. -/
inductive Event
  | createCalled
  | installCalled
  | buildCalled
  | runtimeCalled
  | typesCalled
  | testsCalled
  | dbCalled
  | dataCalled
  | uiCalled
  | localCalled
  | deployCalled
  | scoreCalled
  | cleanupCalled
deriving DecidableEq, Repr

/-- State threaded through `evaluate_app_docker`: the workspace variable, the
metrics record, the issues and details accumulators, and the event trace. -/
structure EvalSt where
  workspace : Option DockerWorkspace := none
  metrics : FullMetrics := {}
  issues : List String := []
  details : List (String × String) := []
  events : List Event := []
deriving DecidableEq, Repr

/-- Oracles for everything `evaluate_app_docker` calls or reads: detection
inputs, the fast flag, per-step call outcomes (raising wherever the code
allows an exception to arise), and wall-clock readings. -/
structure EvalBehavior where
  app_name : String
  app_dir : String
  timestamp : String
  template : String
  hasDockerfile : Bool
  fast_mode : Bool
  createOutcome : PyResult DockerWorkspace
  installOutcome : PyResult ExecResult
  buildOutcome : PyResult ExecResult
  buildTime : Rat
  runtimeOutcome : PyResult ExecResult
  startupTime : Rat
  typesOutcome : PyResult ExecResult
  testsOutcome : PyResult ExecResult
  hasTestFiles : Bool
  dbOutcome : PyResult Bool
  dataOutcome : PyResult (Bool × String)
  uiOutcome : PyResult (Bool × String)
  localOutcome : PyResult (Nat × String)
  deployOutcome : PyResult (Nat × String)
  scoreOutcome : PyResult Rat
deriving Repr

/-- Metric 2, the runtime check (evaluate_app_docker.py lines 114-137):
wrapped in its own try/except so it never propagates; an exception records
`runtime_success = False`, `startup_time_sec = 0.0` and a truncated issue.
Returns the updated state and the `runtime_success` flag. -/
def stepRuntime (b : EvalBehavior) (st : EvalSt) : EvalSt × Bool :=
  match b.runtimeOutcome with
  | PyResult.ok runtime_result =>
    let okrc := runtime_result.exit_code == 0
    ({ st with
        events := st.events ++ [Event.runtimeCalled]
        metrics := { st.metrics with
                      runtime_success := some okrc
                      startup_time_sec := some b.startupTime }
        issues := st.issues ++ (if okrc then [] else ["Runtime check failed"]) },
     okrc)
  | PyResult.exn e =>
    ({ st with
        events := st.events ++ [Event.runtimeCalled]
        metrics := { st.metrics with
                      runtime_success := some false
                      startup_time_sec := some 0 }
        issues := st.issues ++ ["Runtime check error: " ++ pyTrunc 100 e] },
     false)

/-- Metric 3, type safety (evaluate_app_docker.py lines 139-151): only runs
when dependencies installed; not wrapped, so an exception propagates. -/
def stepTypes (b : EvalBehavior) (deps_installed : Bool) (st : EvalSt) : EvalSt × Option String :=
  if deps_installed then
    match b.typesOutcome with
    | PyResult.exn e =>
      ({ st with
          events := st.events ++ [Event.typesCalled] },
       some e)
    | PyResult.ok typecheck_result =>
      ({ st with
          events := st.events ++ [Event.typesCalled]
          metrics := { st.metrics with
                        type_safety := some (typecheck_result.exit_code == 0) } },
       none)
  else (st, none)

/-- Metric 4, tests (evaluate_app_docker.py lines 153-190): only runs when
dependencies installed; wrapped in its own try/except, an exception records an
issue and continues. -/
def stepTests (b : EvalBehavior) (deps_installed : Bool) (st : EvalSt) : EvalSt :=
  if deps_installed then
    match b.testsOutcome with
    | PyResult.exn e =>
      { st with
          events := st.events ++ [Event.testsCalled]
          issues := st.issues ++ ["Test execution error: " ++ e] }
    | PyResult.ok test_result =>
      let tests_pass := test_result.exit_code == 0
      let coverage_pct := parseCoverage (test_result.stdout ++ test_result.stderr)
      { st with
          events := st.events ++ [Event.testsCalled]
          metrics := { st.metrics with
                        tests_pass := some tests_pass
                        test_coverage_pct := some coverage_pct
                        has_tests := some b.hasTestFiles }
          issues := st.issues ++ (if tests_pass then [] else ["Tests failed"]) }
  else st

/-- Metric 6, data validity (evaluate_app_docker.py lines 202-207): not
wrapped, an exception propagates. -/
def stepData (b : EvalBehavior) (st : EvalSt) : EvalSt × Option String :=
  match b.dataOutcome with
  | PyResult.exn e =>
    ({ st with
        events := st.events ++ [Event.dataCalled] },
     some e)
  | PyResult.ok dd =>
    ({ st with
        events := st.events ++ [Event.dataCalled]
        metrics := { st.metrics with
                      data_returned := some dd.1 }
        issues := st.issues ++ (if dd.1 then [] else ["Data validity concerns: " ++ dd.2]) },
     none)

/-- Metric 7, the UI check (evaluate_app_docker.py lines 209-214): not
wrapped, an exception propagates. -/
def stepUI (b : EvalBehavior) (st : EvalSt) : EvalSt × Option String :=
  match b.uiOutcome with
  | PyResult.exn e =>
    ({ st with
        events := st.events ++ [Event.uiCalled] },
     some e)
  | PyResult.ok uu =>
    ({ st with
        events := st.events ++ [Event.uiCalled]
        metrics := { st.metrics with
                      ui_renders := some uu.1 }
        issues := st.issues ++ (if uu.1 then [] else ["UI concerns: " ++ uu.2]) },
     none)

/-- Sequence two blocks that may raise: stop at the first raised exception. -/
def seqE (r : EvalSt × Option String) (k : EvalSt → EvalSt × Option String) : EvalSt × Option String :=
  match r with
  | (st, none) => k st
  | (st, some e) => (st, some e)

/-- Metrics 5-7, the semantic checks (evaluate_app_docker.py lines 192-216):
skipped entirely in fast mode, and skipped when the runtime check failed; the
connectivity check gates the data-validity check, the UI check runs whenever
connectivity ran.  `stepSemanticTail` is the part after a successful
connectivity call: the conditional data-validity check followed by the UI
check. -/
def stepSemanticTail (b : EvalBehavior) (db_success : Bool) (st1 : EvalSt) : EvalSt × Option String :=
  seqE (if db_success then stepData b st1 else (st1, none)) (stepUI b)

/-- Metrics 5-7 continued: the whole semantic block. -/
def stepSemantic (b : EvalBehavior) (runtime_success : Bool) (st : EvalSt) : EvalSt × Option String :=
  if b.fast_mode then (st, none)
  else if runtime_success then
    match b.dbOutcome with
    | PyResult.exn e =>
      ({ st with
          events := st.events ++ [Event.dbCalled] },
       some e)
    | PyResult.ok db_success =>
      stepSemanticTail b db_success
        { st with
            events := st.events ++ [Event.dbCalled]
            metrics := { st.metrics with
                          databricks_connectivity := some db_success }
            issues := st.issues ++
              (if db_success then [] else ["Databricks connectivity failed"]) }
  else (st, none)

/-- The DevX metrics block (evaluate_app_docker.py lines 226-246): the
local-runability and deployability scores are computed inside a single
try/except; an exception anywhere in the block only logs, but skips the rest
of the block. -/
def devxSection (b : EvalBehavior) (st : EvalSt) : EvalSt :=
  match b.localOutcome with
  | PyResult.exn _ =>
    { st with
        events := st.events ++ [Event.localCalled] }
  | PyResult.ok lp =>
    let st1 :=
      { st with
          events := st.events ++ [Event.localCalled]
          metrics := { st.metrics with
                        local_runability_score := some lp.1 }
          details := st.details ++ [("local_runability", lp.2)]
          issues := st.issues ++
            (if lp.1 < 3 then ["Local runability concerns (" ++ toString lp.1 ++ "/5)"] else []) }
    match b.deployOutcome with
    | PyResult.exn _ =>
      { st1 with
          events := st1.events ++ [Event.deployCalled] }
    | PyResult.ok dp =>
      { st1 with
          events := st1.events ++ [Event.deployCalled]
          metrics := { st1.metrics with
                        deployability_score := some dp.1 }
          details := st1.details ++ [("deployability", dp.2)]
          issues := st1.issues ++
            (if dp.1 < 3 then ["Deployability concerns (" ++ toString dp.1 ++ "/5)"] else []) }

/-- The composite-score block (evaluate_app_docker.py lines 248-262): wrapped
in its own try/except, an exception only logs. -/
def scoreSection (b : EvalBehavior) (st : EvalSt) : EvalSt :=
  match b.scoreOutcome with
  | PyResult.exn _ =>
    { st with
        events := st.events ++ [Event.scoreCalled] }
  | PyResult.ok v =>
    { st with
        events := st.events ++ [Event.scoreCalled]
        metrics := { st.metrics with
                      appeval_100 := some v } }

/-- The finally block (evaluate_app_docker.py lines 221-224): cleanup runs
exactly when the workspace variable was assigned. -/
def finallySection (st : EvalSt) : EvalSt :=
  match st.workspace with
  | none => st
  | some _ =>
    { st with
        events := st.events ++ [Event.cleanupCalled] }

/-- The check sequence after the build step (evaluate_app_docker.py lines
114-216): runtime, then type safety and tests gated on `deps_installed`, then
the semantic checks gated on fast mode and the runtime flag. -/
def checksAfterBuild (b : EvalBehavior) (d : Bool) (st : EvalSt) : EvalSt × Option String :=
  seqE (stepTypes b d (stepRuntime b st).1) fun st5 =>
    stepSemantic b (stepRuntime b st).2 (stepTests b d st5)

/-- The try block of `evaluate_app_docker` (lines 77-216): workspace creation
followed by the ordered checks; any exception not caught by an inner handler
aborts the rest of the block and is returned on the exception channel. -/
def tryBody (b : EvalBehavior) (st0 : EvalSt) : EvalSt × Option String :=
  match b.createOutcome with
  | PyResult.exn e =>
    ({ st0 with
        events := st0.events ++ [Event.createCalled] },
     some e)
  | PyResult.ok ws =>
    let st1 :=
      { st0 with
          events := st0.events ++ [Event.createCalled]
          workspace := some ws }
    match b.installOutcome with
    | PyResult.exn e =>
      ({ st1 with
          events := st1.events ++ [Event.installCalled] },
       some e)
    | PyResult.ok install_result =>
      let deps_installed := install_result.exit_code == 0
      let st2 :=
        { st1 with
            events := st1.events ++ [Event.installCalled]
            issues := st1.issues ++
              (if deps_installed then [] else ["Dependencies installation failed"]) }
      match b.buildOutcome with
      | PyResult.exn e =>
        ({ st2 with
            events := st2.events ++ [Event.buildCalled] },
         some e)
      | PyResult.ok build_result =>
        let build_success := build_result.exit_code == 0
        let st3 :=
          { st2 with
              events := st2.events ++ [Event.buildCalled]
              metrics := { st2.metrics with
                            build_success := some build_success
                            build_time_sec := some b.buildTime
                            has_dockerfile := some b.hasDockerfile }
              issues := st2.issues ++ (if build_success then [] else ["Build failed"]) }
        checksAfterBuild b deps_installed st3

/-- The `evaluate_app_docker` result together with the run's event trace. -/
structure EvalRun where
  result : EvalResult
  events : List Event
deriving Repr

/-- The except handler of `evaluate_app_docker` (lines 218-220): a caught
exception from the try block appends an "Evaluation error" issue; a normal
return changes nothing. -/
def exceptMerge (p : EvalSt × Option String) : EvalSt :=
  match p.2 with
  | none => p.1
  | some e =>
    { p.1 with
        issues := p.1.issues ++ ["Evaluation error: " ++ e] }

/-- The state `evaluate_app_docker` starts the pipeline with: empty issues,
details and trace, no workspace, and a fresh metrics record carrying the
detected template (evaluate_app_docker.py lines 71-76). -/
def initSt (b : EvalBehavior) : EvalSt :=
  { metrics := { template_type := b.template } }

/-- `evaluate_app_docker` (cli/evaluation/evaluate_app_docker.py lines
33-273): the Docker-only short-circuit, then try/except/finally around the
check pipeline, then the DevX block and the composite-score block, and the
final EvalResult construction. -/
def evaluate_app_docker (b : EvalBehavior) : EvalRun :=
  if b.template == "unknown" && b.hasDockerfile then
    { result := { app_name := b.app_name, app_dir := b.app_dir, timestamp := b.timestamp,
                  metrics := { template_type := "docker" },
                  issues := ["Docker-only apps not yet supported"], details := [] },
      events := [] }
  else
    let st2 := exceptMerge (tryBody b (initSt b))
    let st3 := finallySection st2
    let st4 := devxSection b st3
    let st5 := scoreSection b st4
    { result := { app_name := b.app_name, app_dir := b.app_dir, timestamp := b.timestamp,
                  metrics := st5.metrics, issues := st5.issues, details := st5.details },
      events := st5.events }

/-- Number of cleanup invocations in a trace. -/
def cleanupCount (es : List Event) : Nat :=
  es.countP (fun e => decide (e = Event.cleanupCalled))

/-- The events of `st2` extend those of `st` by a suffix drawn from
`allowed`. -/
def EventsExtend (allowed : List Event) (st st2 : EvalSt) : Prop :=
  ∃ δ, st2.events = st.events ++ δ ∧ ∀ e ∈ δ, e ∈ allowed

/-- A concrete behavior in which every call succeeds and fast mode is off;
the base point for instantiating the general theorems. -/
def okBehavior : EvalBehavior := {
  app_name := "app1"
  app_dir := "/apps/app1"
  timestamp := "2024-01-01T00:00:00Z"
  template := "trpc"
  hasDockerfile := false
  fast_mode := false
  createOutcome := PyResult.ok { container_id := "cid", container_name := "cn" }
  installOutcome := PyResult.ok { exit_code := 0, stdout := "", stderr := "" }
  buildOutcome := PyResult.ok { exit_code := 0, stdout := "", stderr := "" }
  buildTime := 1
  runtimeOutcome := PyResult.ok { exit_code := 0, stdout := "", stderr := "" }
  startupTime := 1
  typesOutcome := PyResult.ok { exit_code := 0, stdout := "", stderr := "" }
  testsOutcome := PyResult.ok { exit_code := 0, stdout := "All files | 83.4 % |", stderr := "" }
  hasTestFiles := true
  dbOutcome := PyResult.ok true
  dataOutcome := PyResult.ok (true, "")
  uiOutcome := PyResult.ok (true, "")
  localOutcome := PyResult.ok (5, "ok")
  deployOutcome := PyResult.ok (5, "ok")
  scoreOutcome := PyResult.ok 90 }

/-- The character list of the coverage line "All files | 83.4 % |" from the
spec's scenario 4. -/
def covLine : List Char :=
  ['A', 'l', 'l', ' ', 'f', 'i', 'l', 'e', 's', ' ', '|', ' ',
   '8', '3', '.', '4', ' ', '%', ' ', '|']

/-- One worker fires on_complete exactly once, with its own name and the
success flag of its outcome. -/
theorem run_with_sem_callbacks (output_dir app_name : String) (ib : GenItemBehavior) :
    (run_with_sem output_dir app_name ib).2 = [(app_name, genSuccess ib.outcome)] := by
  obtain ⟨o, l⟩ := ib
  cases o <;> rfl

/-- One worker's tuple is tagged with its own app name. -/
theorem run_with_sem_name (output_dir app_name : String) (ib : GenItemBehavior) :
    (run_with_sem output_dir app_name ib).1.app_name = app_name := by
  obtain ⟨o, l⟩ := ib
  cases o <;> rfl

/-- A worker tuple never has both the artifact directory and the error set. -/
theorem run_with_sem_disjoint (output_dir app_name : String) (ib : GenItemBehavior) :
    ¬((run_with_sem output_dir app_name ib).1.app_dir.isSome ∧
      (run_with_sem output_dir app_name ib).1.error.isSome) := by
  obtain ⟨o, l⟩ := ib
  cases o <;> simp [run_with_sem]

/-- A worker tuple with the error set has no metrics. -/
theorem run_with_sem_error_no_metrics (output_dir app_name : String) (ib : GenItemBehavior) :
    (run_with_sem output_dir app_name ib).1.error.isSome →
    (run_with_sem output_dir app_name ib).1.metrics = none := by
  obtain ⟨o, l⟩ := ib
  cases o <;> simp [run_with_sem]

/-- Flattening a list of singletons is a map. -/
theorem flatten_singletons {α β : Type} (f : α → β) (l : List α) :
    (l.map (fun x => [f x])).flatten = l.map f := by
  induction l with
  | nil => rfl
  | cons a t ih => simp [ih]

/-- Claim C2: `generate_bulk` returns exactly one tuple per input item, in
input order and tagged with that item's app_name; an exception in one item is
stored as that item's error string and does not affect any sibling slot (each
slot is exactly its own worker's tuple); and on_complete fires exactly once
per item with (app_name, success-boolean). -/
theorem c2_generate_bulk_batch (output_dir : String) (items : List (String × GenItemBehavior)) :
    (generate_bulk output_dir items).1.length = items.length ∧
    (∀ i : Nat, (generate_bulk output_dir items).1[i]? =
      (items[i]?).map (fun it => (run_with_sem output_dir it.1 it.2).1)) ∧
    (∀ i : Nat, ∀ p : String × GenItemBehavior, items[i]? = some p →
      ∃ t, (generate_bulk output_dir items).1[i]? = some t ∧ t.app_name = p.1) ∧
    (∀ i : Nat, ∀ p : String × GenItemBehavior, ∀ e : String,
      items[i]? = some p → p.2.outcome = GenOutcome.raised e →
      ∃ t, (generate_bulk output_dir items).1[i]? = some t ∧
        t.app_name = p.1 ∧ t.error = some e) ∧
    (generate_bulk output_dir items).2 =
      items.map (fun it => (it.1, genSuccess it.2.outcome)) := by
  refine ⟨by simp [generate_bulk], ?_, ?_, ?_, ?_⟩
  · intro i
    simp only [generate_bulk, List.map_map, List.getElem?_map]
    rfl
  · intro i p hp
    refine ⟨(run_with_sem output_dir p.1 p.2).1, ?_, run_with_sem_name output_dir p.1 p.2⟩
    simp [generate_bulk, List.getElem?_map, Function.comp, hp]
  · intro i p e hp he
    refine ⟨(run_with_sem output_dir p.1 p.2).1, ?_,
      run_with_sem_name output_dir p.1 p.2, ?_⟩
    · simp [generate_bulk, List.getElem?_map, Function.comp, hp]
    · obtain ⟨n, ib⟩ := p
      simp only at he
      simp [run_with_sem, he]
  · show ((items.map fun it => run_with_sem output_dir it.1 it.2).map Prod.snd).flatten = _
    rw [List.map_map]
    have hcongr : items.map (Prod.snd ∘ fun it => run_with_sem output_dir it.1 it.2) =
        items.map (fun it => [(it.1, genSuccess it.2.outcome)]) := by
      apply List.map_congr_left
      intro it _
      exact run_with_sem_callbacks output_dir it.1 it.2
    rw [hcongr, flatten_singletons]

/-- Witness for C2 at a concrete two-item batch with one raising item. -/
theorem c2_generate_bulk_batch_witness :
    ∃ t, (generate_bulk "/out"
      [("a", { outcome := GenOutcome.exported none, logExists := true }),
       ("b", { outcome := GenOutcome.raised "err", logExists := false })]).1[1]? = some t ∧
      t.app_name = "b" ∧ t.error = some "err" :=
  (c2_generate_bulk_batch "/out"
      [("a", { outcome := GenOutcome.exported none, logExists := true }),
       ("b", { outcome := GenOutcome.raised "err", logExists := false })]).2.2.2.1
    1 ("b", { outcome := GenOutcome.raised "err", logExists := false }) "err" rfl rfl

/-- Claim C6: in each per-item tuple, at most one of the artifact directory
and the error is populated and an error excludes metrics; the no-artifact
outcome yields app_dir = None with error = None (and no metrics), while a
genuine execution error yields error set and app_dir absent; this holds for
every tuple `generate_bulk` returns. -/
theorem c6_artifact_error_disjoint (output_dir app_name : String) (ib : GenItemBehavior)
    (items : List (String × GenItemBehavior)) :
    (¬((run_with_sem output_dir app_name ib).1.app_dir.isSome ∧
       (run_with_sem output_dir app_name ib).1.error.isSome)) ∧
    (ib.outcome = GenOutcome.noArtifact →
      (run_with_sem output_dir app_name ib).1.app_dir = none ∧
      (run_with_sem output_dir app_name ib).1.error = none ∧
      (run_with_sem output_dir app_name ib).1.metrics = none) ∧
    (∀ m, ib.outcome = GenOutcome.exported m →
      (run_with_sem output_dir app_name ib).1.app_dir.isSome ∧
      (run_with_sem output_dir app_name ib).1.error = none) ∧
    (∀ e, ib.outcome = GenOutcome.raised e →
      (run_with_sem output_dir app_name ib).1.error = some e ∧
      (run_with_sem output_dir app_name ib).1.app_dir = none ∧
      (run_with_sem output_dir app_name ib).1.metrics = none) ∧
    (∀ t ∈ (generate_bulk output_dir items).1,
      ¬(t.app_dir.isSome ∧ t.error.isSome) ∧ (t.error.isSome → t.metrics = none)) := by
  refine ⟨run_with_sem_disjoint output_dir app_name ib, ?_, ?_, ?_, ?_⟩
  · intro h
    obtain ⟨o, l⟩ := ib
    simp only at h
    simp [run_with_sem, h]
  · intro m h
    obtain ⟨o, l⟩ := ib
    simp only at h
    simp [run_with_sem, h]
  · intro e h
    obtain ⟨o, l⟩ := ib
    simp only at h
    simp [run_with_sem, h]
  · intro t ht
    simp only [generate_bulk, List.map_map, List.mem_map, Function.comp] at ht
    obtain ⟨it, _, hit⟩ := ht
    exact hit ▸ ⟨run_with_sem_disjoint output_dir it.1 it.2,
      run_with_sem_error_no_metrics output_dir it.1 it.2⟩

/-- Witness for C6 at the three concrete outcomes. -/
theorem c6_artifact_error_disjoint_witness :
    ((run_with_sem "/out" "c" { outcome := GenOutcome.noArtifact, logExists := true }).1.app_dir = none ∧
     (run_with_sem "/out" "c" { outcome := GenOutcome.noArtifact, logExists := true }).1.error = none ∧
     (run_with_sem "/out" "c" { outcome := GenOutcome.noArtifact, logExists := true }).1.metrics = none) ∧
    ((run_with_sem "/out" "b" { outcome := GenOutcome.raised "err", logExists := false }).1.error = some "err" ∧
     (run_with_sem "/out" "b" { outcome := GenOutcome.raised "err", logExists := false }).1.app_dir = none ∧
     (run_with_sem "/out" "b" { outcome := GenOutcome.raised "err", logExists := false }).1.metrics = none) :=
  ⟨(c6_artifact_error_disjoint "/out" "c" { outcome := GenOutcome.noArtifact, logExists := true } []).2.1 rfl,
   (c6_artifact_error_disjoint "/out" "b" { outcome := GenOutcome.raised "err", logExists := false } []).2.2.2.1 "err" rfl⟩

/-- Claim C3: `DockerWorkspace.exec` always returns an ExecResult: a completed
process of any exit status (including non-zero) is returned as an ordinary
exit_code with its captured output, and a command exceeding its timeout is
returned as exit code 124 with empty stdout and a timeout message in stderr,
not as an exception. -/
theorem c3_exec_never_raises {σ : Type} (step : σ → List String → Nat → SubprocessOutcome × σ)
    (s : σ) (ws : DockerWorkspace) (command : List String) (cwd : Option String) (timeout : Nat) :
    (∀ rc out err s2,
      step s (dockerExecArgv ws command cwd) timeout = (SubprocessOutcome.completed rc out err, s2) →
      (DockerWorkspace.exec step s ws command cwd timeout).1 =
        { exit_code := rc, stdout := out, stderr := err }) ∧
    (∀ s2,
      step s (dockerExecArgv ws command cwd) timeout = (SubprocessOutcome.timedOut, s2) →
      (DockerWorkspace.exec step s ws command cwd timeout).1 =
        { exit_code := 124, stdout := "",
          stderr := "Command timed out after " ++ toString timeout ++ "s" }) := by
  constructor
  · intro rc out err s2 h
    simp [DockerWorkspace.exec, h]
  · intro s2 h
    simp [DockerWorkspace.exec, h]

/-- Witness for C3: a failing command (exit 7) and a timed-out command. -/
theorem c3_exec_never_raises_witness :
    (DockerWorkspace.exec (fun (u : Unit) _ _ => (SubprocessOutcome.completed 7 "out" "err", u)) ()
      { container_id := "c", container_name := "n" } ["false"] none 30).1 =
      { exit_code := 7, stdout := "out", stderr := "err" } ∧
    (DockerWorkspace.exec (fun (u : Unit) _ _ => (SubprocessOutcome.timedOut, u)) ()
      { container_id := "c", container_name := "n" } ["x"] none 30).1 =
      { exit_code := 124, stdout := "",
        stderr := "Command timed out after " ++ toString 30 ++ "s" } :=
  ⟨(c3_exec_never_raises (fun (u : Unit) _ _ => (SubprocessOutcome.completed 7 "out" "err", u)) ()
      { container_id := "c", container_name := "n" } ["false"] none 30).1 7 "out" "err" () rfl,
   (c3_exec_never_raises (fun (u : Unit) _ _ => (SubprocessOutcome.timedOut, u)) ()
      { container_id := "c", container_name := "n" } ["x"] none 30).2 () rfl⟩

/-- The container/host state after an exec call is whatever the subprocess
semantics produced. -/
theorem exec_state {σ : Type} (step : σ → List String → Nat → SubprocessOutcome × σ)
    (s : σ) (ws : DockerWorkspace) (command : List String) (cwd : Option String) (timeout : Nat) :
    (DockerWorkspace.exec step s ws command cwd timeout).2.1 =
      (step s (dockerExecArgv ws command cwd) timeout).2 := by
  rcases h : step s (dockerExecArgv ws command cwd) timeout with ⟨o, s2⟩
  cases o <;> simp [DockerWorkspace.exec, h]

/-- An exec call issues exactly one docker-exec invocation. -/
theorem exec_calls {σ : Type} (step : σ → List String → Nat → SubprocessOutcome × σ)
    (s : σ) (ws : DockerWorkspace) (command : List String) (cwd : Option String) (timeout : Nat) :
    (DockerWorkspace.exec step s ws command cwd timeout).2.2 =
      [{ argv := dockerExecArgv ws command cwd, timeout := timeout }] := by
  rcases h : step s (dockerExecArgv ws command cwd) timeout with ⟨o, s2⟩
  cases o <;> simp [DockerWorkspace.exec, h]

/-- Claim C10 (amended): `run_tests` exports TEST_PORT in a separate
docker-exec session; provided that session leaves the container state
unchanged (docker exec sessions do not share shell environment, and the
export touches nothing else), the test.sh session receives an identical
state and an identical docker-exec call for every value of test_port, and the
returned ExecResult is the same; the two runs differ only in the text of the
export call itself. -/
theorem c10_test_port_no_effect {σ : Type} (step : σ → List String → Nat → SubprocessOutcome × σ)
    (s : σ) (ws : DockerWorkspace)
    (hexport : ∀ n : Nat,
      (step s (dockerExecArgv ws ["sh", "-c", "export TEST_PORT=" ++ toString n] none) 300).2 = s)
    (p1 p2 : Nat) :
    (run_tests step s ws p1).1 = (run_tests step s ws p2).1 ∧
    (run_tests step s ws p1).2.2.drop 1 = (run_tests step s ws p2).2.2.drop 1 ∧
    (run_tests step s ws p1).2.2.drop 1 =
      [{ argv := dockerExecArgv ws ["bash", "/eval/test.sh"] none, timeout := 180 }] := by
  have hstate : ∀ n : Nat,
      (DockerWorkspace.exec step s ws ["sh", "-c", "export TEST_PORT=" ++ toString n] none 300).2.1 = s := by
    intro n
    rw [exec_state]
    exact hexport n
  have hres : ∀ n : Nat, (run_tests step s ws n).1 =
      (DockerWorkspace.exec step s ws ["bash", "/eval/test.sh"] none 180).1 := by
    intro n
    show (DockerWorkspace.exec step
      (DockerWorkspace.exec step s ws ["sh", "-c", "export TEST_PORT=" ++ toString n] none 300).2.1
      ws ["bash", "/eval/test.sh"] none 180).1 = _
    rw [hstate]
  have htrace : ∀ n : Nat, (run_tests step s ws n).2.2.drop 1 =
      [{ argv := dockerExecArgv ws ["bash", "/eval/test.sh"] none, timeout := 180 }] := by
    intro n
    show ((DockerWorkspace.exec step s ws ["sh", "-c", "export TEST_PORT=" ++ toString n] none 300).2.2 ++
      (DockerWorkspace.exec step
        (DockerWorkspace.exec step s ws ["sh", "-c", "export TEST_PORT=" ++ toString n] none 300).2.1
        ws ["bash", "/eval/test.sh"] none 180).2.2).drop 1 = _
    rw [exec_calls, exec_calls]
    rfl
  exact ⟨(hres p1).trans (hres p2).symm, (htrace p1).trans (htrace p2).symm, htrace p1⟩

/-- Witness for C10 (amended) with a constant subprocess semantics. -/
theorem c10_test_port_no_effect_witness :
    (run_tests (fun (u : Unit) _ _ => (SubprocessOutcome.completed 0 "" "", u)) ()
      { container_id := "c", container_name := "n" } 9000).1 =
    (run_tests (fun (u : Unit) _ _ => (SubprocessOutcome.completed 0 "" "", u)) ()
      { container_id := "c", container_name := "n" } 9001).1 :=
  (c10_test_port_no_effect (fun (u : Unit) _ _ => (SubprocessOutcome.completed 0 "" "", u)) ()
    { container_id := "c", container_name := "n" } (fun _ => rfl) 9000 9001).1

/-- Counterexample for C10 as stated: two runs of `run_tests` differing only
in test_port do NOT perform the same docker-exec calls: the export session's
argv contains the port value, so the traces at 9000 and 9001 differ. -/
theorem c10_counterexample :
    (run_tests (fun (u : Unit) _ _ => (SubprocessOutcome.completed 0 "" "", u)) ()
      { container_id := "c", container_name := "n" } 9000).2.2 ≠
    (run_tests (fun (u : Unit) _ _ => (SubprocessOutcome.completed 0 "" "", u)) ()
      { container_id := "c", container_name := "n" } 9001).2.2 := by
  decide

/-- EventsExtend is reflexive. -/
theorem eventsExtend_refl (A : List Event) (st : EvalSt) : EventsExtend A st st :=
  ⟨[], by simp, by simp⟩

/-- EventsExtend is transitive. -/
theorem eventsExtend_trans {A : List Event} {st1 st2 st3 : EvalSt}
    (h1 : EventsExtend A st1 st2) (h2 : EventsExtend A st2 st3) : EventsExtend A st1 st3 := by
  obtain ⟨d1, he1, hm1⟩ := h1
  obtain ⟨d2, he2, hm2⟩ := h2
  refine ⟨d1 ++ d2, by simp [he2, he1], ?_⟩
  intro e he
  rcases List.mem_append.mp he with h | h
  · exact hm1 e h
  · exact hm2 e h

/-- EventsExtend is monotone in the allowed set. -/
theorem eventsExtend_mono {A B : List Event} {st st2 : EvalSt}
    (hAB : ∀ e ∈ A, e ∈ B) (h : EventsExtend A st st2) : EventsExtend B st st2 := by
  obtain ⟨d, he, hm⟩ := h
  exact ⟨d, he, fun e hd => hAB e (hm e hd)⟩

/-- Membership of an event outside the allowed set is unchanged by an
extension. -/
theorem eventsExtend_mem_iff {A : List Event} {st st2 : EvalSt}
    (h : EventsExtend A st st2) {ev : Event} (hev : ev ∉ A) :
    ev ∈ st2.events ↔ ev ∈ st.events := by
  obtain ⟨d, he, hm⟩ := h
  rw [he, List.mem_append]
  constructor
  · rintro (h2 | h2)
    · exact h2
    · exact absurd (hm ev h2) hev
  · exact Or.inl

/-- An extension keeps every existing event. -/
theorem eventsExtend_mem {A : List Event} {st st2 : EvalSt}
    (h : EventsExtend A st st2) {ev : Event} (hev : ev ∈ st.events) : ev ∈ st2.events := by
  obtain ⟨d, he, _⟩ := h
  rw [he, List.mem_append]
  exact Or.inl hev

/-- An extension whose allowed set has no cleanup leaves the cleanup count
unchanged. -/
theorem eventsExtend_cleanupCount {A : List Event} {st st2 : EvalSt}
    (h : EventsExtend A st st2) (hA : Event.cleanupCalled ∉ A) :
    cleanupCount st2.events = cleanupCount st.events := by
  obtain ⟨d, he, hm⟩ := h
  have hz : List.countP (fun e => decide (e = Event.cleanupCalled)) d = 0 := by
    rw [List.countP_eq_zero]
    intro a ha
    simp only [decide_eq_true_eq]
    intro hEq
    exact hA (hEq ▸ hm a ha)
  simp only [cleanupCount, he, List.countP_append, hz, Nat.add_zero]

/-- Appending one cleanup event increments the cleanup count. -/
theorem cleanupCount_append_cleanup (es : List Event) :
    cleanupCount (es ++ [Event.cleanupCalled]) = cleanupCount es + 1 := by
  simp [cleanupCount, List.countP_append, List.countP_cons]

/-- Frame facts for the runtime step: it appends exactly its own event,
keeps the workspace, and touches only the runtime metric fields. -/
theorem stepRuntime_frame (b : EvalBehavior) (st : EvalSt) :
    (stepRuntime b st).1.events = st.events ++ [Event.runtimeCalled] ∧
    (stepRuntime b st).1.workspace = st.workspace ∧
    (stepRuntime b st).1.metrics.type_safety = st.metrics.type_safety ∧
    (stepRuntime b st).1.metrics.tests_pass = st.metrics.tests_pass ∧
    (stepRuntime b st).1.metrics.test_coverage_pct = st.metrics.test_coverage_pct ∧
    (stepRuntime b st).1.metrics.has_tests = st.metrics.has_tests ∧
    (stepRuntime b st).1.metrics.databricks_connectivity = st.metrics.databricks_connectivity ∧
    (stepRuntime b st).1.metrics.data_returned = st.metrics.data_returned ∧
    (stepRuntime b st).1.metrics.ui_renders = st.metrics.ui_renders ∧
    (stepRuntime b st).1.metrics.local_runability_score = st.metrics.local_runability_score ∧
    (stepRuntime b st).1.metrics.deployability_score = st.metrics.deployability_score := by
  cases h : b.runtimeOutcome <;> simp [stepRuntime, h]

/-- Frame facts for the type-safety step. -/
theorem stepTypes_frame (b : EvalBehavior) (d : Bool) (st : EvalSt) :
    EventsExtend [Event.typesCalled] st (stepTypes b d st).1 ∧
    (stepTypes b d st).1.workspace = st.workspace ∧
    (stepTypes b d st).1.metrics.tests_pass = st.metrics.tests_pass ∧
    (stepTypes b d st).1.metrics.test_coverage_pct = st.metrics.test_coverage_pct ∧
    (stepTypes b d st).1.metrics.has_tests = st.metrics.has_tests ∧
    (stepTypes b d st).1.metrics.databricks_connectivity = st.metrics.databricks_connectivity ∧
    (stepTypes b d st).1.metrics.data_returned = st.metrics.data_returned ∧
    (stepTypes b d st).1.metrics.ui_renders = st.metrics.ui_renders ∧
    (stepTypes b d st).1.metrics.local_runability_score = st.metrics.local_runability_score ∧
    (stepTypes b d st).1.metrics.deployability_score = st.metrics.deployability_score := by
  cases d with
  | false =>
    exact ⟨eventsExtend_refl _ _, by simp [stepTypes]⟩
  | true =>
    cases h : b.typesOutcome with
    | ok r =>
      refine ⟨⟨[Event.typesCalled], by simp [stepTypes, h], by simp⟩, ?_⟩
      simp [stepTypes, h]
    | exn e =>
      refine ⟨⟨[Event.typesCalled], by simp [stepTypes, h], by simp⟩, ?_⟩
      simp [stepTypes, h]

/-- Frame facts for the tests step. -/
theorem stepTests_frame (b : EvalBehavior) (d : Bool) (st : EvalSt) :
    EventsExtend [Event.testsCalled] st (stepTests b d st) ∧
    (stepTests b d st).workspace = st.workspace ∧
    (stepTests b d st).metrics.type_safety = st.metrics.type_safety ∧
    (stepTests b d st).metrics.databricks_connectivity = st.metrics.databricks_connectivity ∧
    (stepTests b d st).metrics.data_returned = st.metrics.data_returned ∧
    (stepTests b d st).metrics.ui_renders = st.metrics.ui_renders ∧
    (stepTests b d st).metrics.local_runability_score = st.metrics.local_runability_score ∧
    (stepTests b d st).metrics.deployability_score = st.metrics.deployability_score := by
  cases d with
  | false =>
    exact ⟨eventsExtend_refl _ _, by simp [stepTests]⟩
  | true =>
    cases h : b.testsOutcome with
    | ok r =>
      refine ⟨⟨[Event.testsCalled], by simp [stepTests, h], by simp⟩, ?_⟩
      simp [stepTests, h]
    | exn e =>
      refine ⟨⟨[Event.testsCalled], by simp [stepTests, h], by simp⟩, ?_⟩
      simp [stepTests, h]

/-- Frame facts for the data-validity step. -/
theorem stepData_frame (b : EvalBehavior) (st : EvalSt) :
    (stepData b st).1.events = st.events ++ [Event.dataCalled] ∧
    (stepData b st).1.workspace = st.workspace ∧
    (stepData b st).1.metrics.type_safety = st.metrics.type_safety ∧
    (stepData b st).1.metrics.tests_pass = st.metrics.tests_pass ∧
    (stepData b st).1.metrics.test_coverage_pct = st.metrics.test_coverage_pct ∧
    (stepData b st).1.metrics.has_tests = st.metrics.has_tests ∧
    (stepData b st).1.metrics.local_runability_score = st.metrics.local_runability_score ∧
    (stepData b st).1.metrics.deployability_score = st.metrics.deployability_score := by
  cases h : b.dataOutcome <;> simp [stepData, h]

/-- Frame facts for the UI step. -/
theorem stepUI_frame (b : EvalBehavior) (st : EvalSt) :
    (stepUI b st).1.events = st.events ++ [Event.uiCalled] ∧
    (stepUI b st).1.workspace = st.workspace ∧
    (stepUI b st).1.metrics.type_safety = st.metrics.type_safety ∧
    (stepUI b st).1.metrics.tests_pass = st.metrics.tests_pass ∧
    (stepUI b st).1.metrics.test_coverage_pct = st.metrics.test_coverage_pct ∧
    (stepUI b st).1.metrics.has_tests = st.metrics.has_tests ∧
    (stepUI b st).1.metrics.local_runability_score = st.metrics.local_runability_score ∧
    (stepUI b st).1.metrics.deployability_score = st.metrics.deployability_score := by
  cases h : b.uiOutcome <;> simp [stepUI, h]

/-- `seqE` when the first block returned normally. -/
theorem seqE_none {r : EvalSt × Option String} {k : EvalSt → EvalSt × Option String}
    (h : r.2 = none) : seqE r k = k r.1 := by
  rcases r with ⟨st, o⟩
  simp only at h
  simp [seqE, h]

/-- `seqE` when the first block raised. -/
theorem seqE_some {r : EvalSt × Option String} {k : EvalSt → EvalSt × Option String}
    {e : String} (h : r.2 = some e) : seqE r k = (r.1, some e) := by
  rcases r with ⟨st, o⟩
  simp only at h
  simp [seqE, h]

/-- Frame facts for the post-connectivity part of the semantic block. -/
theorem stepSemanticTail_frame (b : EvalBehavior) (db : Bool) (st1 : EvalSt) :
    EventsExtend [Event.dataCalled, Event.uiCalled] st1 (stepSemanticTail b db st1).1 ∧
    (stepSemanticTail b db st1).1.workspace = st1.workspace ∧
    (stepSemanticTail b db st1).1.metrics.type_safety = st1.metrics.type_safety ∧
    (stepSemanticTail b db st1).1.metrics.tests_pass = st1.metrics.tests_pass ∧
    (stepSemanticTail b db st1).1.metrics.test_coverage_pct = st1.metrics.test_coverage_pct ∧
    (stepSemanticTail b db st1).1.metrics.has_tests = st1.metrics.has_tests ∧
    (stepSemanticTail b db st1).1.metrics.local_runability_score = st1.metrics.local_runability_score ∧
    (stepSemanticTail b db st1).1.metrics.deployability_score = st1.metrics.deployability_score := by
  cases db with
  | false =>
    have he : stepSemanticTail b false st1 = stepUI b st1 := by
      simp [stepSemanticTail, seqE]
    rw [he]
    obtain ⟨hUe, hUw, hU1, hU2, hU3, hU4, hU5, hU6⟩ := stepUI_frame b st1
    exact ⟨⟨[Event.uiCalled], by rw [hUe], by decide⟩, hUw, hU1, hU2, hU3, hU4, hU5, hU6⟩
  | true =>
    obtain ⟨hDe, hDw, hD1, hD2, hD3, hD4, hD5, hD6⟩ := stepData_frame b st1
    rcases hd : stepData b st1 with ⟨stD, eD⟩
    rw [hd] at hDe hDw hD1 hD2 hD3 hD4 hD5 hD6
    simp only at hDe hDw hD1 hD2 hD3 hD4 hD5 hD6
    cases eD with
    | some e =>
      have he : stepSemanticTail b true st1 = (stD, some e) := by
        rw [stepSemanticTail, if_pos rfl,
          seqE_some (show (stepData b st1).2 = some e by rw [hd])]
        rw [hd]
      rw [he]
      exact ⟨⟨[Event.dataCalled], hDe, by decide⟩, hDw, hD1, hD2, hD3, hD4, hD5, hD6⟩
    | none =>
      have he : stepSemanticTail b true st1 = stepUI b stD := by
        rw [stepSemanticTail, if_pos rfl,
          seqE_none (show (stepData b st1).2 = none by rw [hd])]
        rw [hd]
      rw [he]
      obtain ⟨hUe, hUw, hU1, hU2, hU3, hU4, hU5, hU6⟩ := stepUI_frame b stD
      refine ⟨⟨[Event.dataCalled, Event.uiCalled], ?_, by decide⟩,
        ?_, ?_, ?_, ?_, ?_, ?_, ?_⟩
      · rw [hUe, hDe, List.append_assoc]
        rfl
      · rw [hUw, hDw]
      · rw [hU1, hD1]
      · rw [hU2, hD2]
      · rw [hU3, hD3]
      · rw [hU4, hD4]
      · rw [hU5, hD5]
      · rw [hU6, hD6]

/-- Frame facts for the semantic block: only its three events can be added,
the workspace is kept, and the non-semantic metric fields are untouched. -/
theorem stepSemantic_frame (b : EvalBehavior) (r : Bool) (st : EvalSt) :
    EventsExtend [Event.dbCalled, Event.dataCalled, Event.uiCalled] st (stepSemantic b r st).1 ∧
    (stepSemantic b r st).1.workspace = st.workspace ∧
    (stepSemantic b r st).1.metrics.type_safety = st.metrics.type_safety ∧
    (stepSemantic b r st).1.metrics.tests_pass = st.metrics.tests_pass ∧
    (stepSemantic b r st).1.metrics.test_coverage_pct = st.metrics.test_coverage_pct ∧
    (stepSemantic b r st).1.metrics.has_tests = st.metrics.has_tests ∧
    (stepSemantic b r st).1.metrics.local_runability_score = st.metrics.local_runability_score ∧
    (stepSemantic b r st).1.metrics.deployability_score = st.metrics.deployability_score := by
  cases hf : b.fast_mode with
  | true =>
    have hid : stepSemantic b r st = (st, none) := by
      simp [stepSemantic, hf]
    rw [hid]
    exact ⟨eventsExtend_refl _ _, rfl, rfl, rfl, rfl, rfl, rfl, rfl⟩
  | false =>
    cases r with
    | false =>
      have hid : stepSemantic b false st = (st, none) := by
        simp [stepSemantic, hf]
      rw [hid]
      exact ⟨eventsExtend_refl _ _, rfl, rfl, rfl, rfl, rfl, rfl, rfl⟩
    | true =>
      cases h : b.dbOutcome with
      | exn e =>
        refine ⟨⟨[Event.dbCalled], by simp [stepSemantic, hf, h], by decide⟩, ?_⟩
        simp [stepSemantic, hf, h]
      | ok db_success =>
        simp only [stepSemantic, hf, h]
        constructor
        · exact eventsExtend_trans ⟨[Event.dbCalled], by simp, by decide⟩
            (eventsExtend_mono (by decide) (stepSemanticTail_frame b db_success _).1)
        · obtain ⟨_, hTw, hT1, hT2, hT3, hT4, hT5, hT6⟩ :=
            stepSemanticTail_frame b db_success
              { st with
                  events := st.events ++ [Event.dbCalled]
                  metrics := { st.metrics with
                                databricks_connectivity := some db_success }
                  issues := st.issues ++
                    (if db_success then [] else ["Databricks connectivity failed"]) }
          exact ⟨hTw, hT1, hT2, hT3, hT4, hT5, hT6⟩

/-- The DevX block when the local-runability call raised: only the local
event is added, nothing else changes (in particular the deployability call is
skipped). -/
theorem devxSection_exn (b : EvalBehavior) (st : EvalSt) (e : String)
    (h : b.localOutcome = PyResult.exn e) :
    devxSection b st = { st with events := st.events ++ [Event.localCalled] } := by
  simp [devxSection, h]

/-- The DevX block when the local-runability call returned: both DevX events
fire, whatever the deployability call does. -/
theorem devxSection_ok_events (b : EvalBehavior) (st : EvalSt) (lp : Nat × String)
    (h : b.localOutcome = PyResult.ok lp) :
    (devxSection b st).events = st.events ++ [Event.localCalled, Event.deployCalled] := by
  cases h2 : b.deployOutcome <;> simp [devxSection, h, h2]

/-- Frame facts for the DevX block: only its two events can be added, the
local event always fires, the workspace is kept, and all metric fields other
than the two DevX scores are untouched. -/
theorem devxSection_frame (b : EvalBehavior) (st : EvalSt) :
    EventsExtend [Event.localCalled, Event.deployCalled] st (devxSection b st) ∧
    Event.localCalled ∈ (devxSection b st).events ∧
    (devxSection b st).workspace = st.workspace ∧
    (devxSection b st).metrics.type_safety = st.metrics.type_safety ∧
    (devxSection b st).metrics.tests_pass = st.metrics.tests_pass ∧
    (devxSection b st).metrics.test_coverage_pct = st.metrics.test_coverage_pct ∧
    (devxSection b st).metrics.has_tests = st.metrics.has_tests ∧
    (devxSection b st).metrics.databricks_connectivity = st.metrics.databricks_connectivity ∧
    (devxSection b st).metrics.data_returned = st.metrics.data_returned ∧
    (devxSection b st).metrics.ui_renders = st.metrics.ui_renders := by
  cases h : b.localOutcome with
  | exn e =>
    rw [devxSection_exn b st e h]
    exact ⟨⟨[Event.localCalled], rfl, by decide⟩, by simp, rfl, rfl, rfl, rfl, rfl, rfl, rfl, rfl⟩
  | ok lp =>
    cases h2 : b.deployOutcome with
    | exn e2 =>
      refine ⟨⟨[Event.localCalled, Event.deployCalled], ?_, by decide⟩, ?_, ?_⟩ <;>
        simp [devxSection, h, h2]
    | ok dp =>
      refine ⟨⟨[Event.localCalled, Event.deployCalled], ?_, by decide⟩, ?_, ?_⟩ <;>
        simp [devxSection, h, h2]

/-- Frame facts for the composite-score block: only the score event is
appended, the workspace is kept, and only `appeval_100` can change. -/
theorem scoreSection_frame (b : EvalBehavior) (st : EvalSt) :
    (scoreSection b st).events = st.events ++ [Event.scoreCalled] ∧
    (scoreSection b st).workspace = st.workspace ∧
    (scoreSection b st).metrics.type_safety = st.metrics.type_safety ∧
    (scoreSection b st).metrics.tests_pass = st.metrics.tests_pass ∧
    (scoreSection b st).metrics.test_coverage_pct = st.metrics.test_coverage_pct ∧
    (scoreSection b st).metrics.has_tests = st.metrics.has_tests ∧
    (scoreSection b st).metrics.databricks_connectivity = st.metrics.databricks_connectivity ∧
    (scoreSection b st).metrics.data_returned = st.metrics.data_returned ∧
    (scoreSection b st).metrics.ui_renders = st.metrics.ui_renders ∧
    (scoreSection b st).metrics.local_runability_score = st.metrics.local_runability_score ∧
    (scoreSection b st).metrics.deployability_score = st.metrics.deployability_score := by
  cases h : b.scoreOutcome <;> simp [scoreSection, h]

/-- The finally block with an assigned workspace: exactly one cleanup event. -/
theorem finallySection_some (st : EvalSt) (w : DockerWorkspace) (h : st.workspace = some w) :
    finallySection st = { st with events := st.events ++ [Event.cleanupCalled] } := by
  simp [finallySection, h]

/-- The finally block with no workspace: nothing happens. -/
theorem finallySection_none (st : EvalSt) (h : st.workspace = none) :
    finallySection st = st := by
  simp [finallySection, h]

/-- Frame facts for the finally block. -/
theorem finallySection_frame (st : EvalSt) :
    EventsExtend [Event.cleanupCalled] st (finallySection st) ∧
    (finallySection st).metrics = st.metrics ∧
    (finallySection st).workspace = st.workspace := by
  cases h : st.workspace with
  | none =>
    rw [finallySection_none st h]
    exact ⟨eventsExtend_refl _ _, rfl, h⟩
  | some w =>
    rw [finallySection_some st w h]
    exact ⟨⟨[Event.cleanupCalled], rfl, by decide⟩, rfl, h⟩

/-- The composite-score block as an extension by its own event. -/
theorem scoreSection_extend (b : EvalBehavior) (st : EvalSt) :
    EventsExtend [Event.scoreCalled] st (scoreSection b st) :=
  ⟨[Event.scoreCalled], (scoreSection_frame b st).1, by decide⟩

/-- The except handler changes only the issues list. -/
theorem exceptMerge_frame (p : EvalSt × Option String) :
    (exceptMerge p).events = p.1.events ∧
    (exceptMerge p).metrics = p.1.metrics ∧
    (exceptMerge p).workspace = p.1.workspace := by
  rcases p with ⟨st, o⟩
  cases o <;> simp [exceptMerge]

/-- Frame facts for the finally/DevX/score tail shared by every pipeline
run: only its four events can be added and the check metric fields are
untouched. -/
theorem tail_frame (b : EvalBehavior) (st : EvalSt) :
    EventsExtend [Event.cleanupCalled, Event.localCalled, Event.deployCalled, Event.scoreCalled]
      st (scoreSection b (devxSection b (finallySection st))) ∧
    (scoreSection b (devxSection b (finallySection st))).metrics.type_safety = st.metrics.type_safety ∧
    (scoreSection b (devxSection b (finallySection st))).metrics.tests_pass = st.metrics.tests_pass ∧
    (scoreSection b (devxSection b (finallySection st))).metrics.test_coverage_pct = st.metrics.test_coverage_pct ∧
    (scoreSection b (devxSection b (finallySection st))).metrics.has_tests = st.metrics.has_tests ∧
    (scoreSection b (devxSection b (finallySection st))).metrics.databricks_connectivity = st.metrics.databricks_connectivity ∧
    (scoreSection b (devxSection b (finallySection st))).metrics.data_returned = st.metrics.data_returned ∧
    (scoreSection b (devxSection b (finallySection st))).metrics.ui_renders = st.metrics.ui_renders := by
  obtain ⟨hFe, hFm, hFw⟩ := finallySection_frame st
  obtain ⟨hDe, hDmem, hDw, hD1, hD2, hD3, hD4, hD5, hD6, hD7⟩ :=
    devxSection_frame b (finallySection st)
  obtain ⟨hSe, hSw, hS1, hS2, hS3, hS4, hS5, hS6, hS7, hS8, hS9⟩ :=
    scoreSection_frame b (devxSection b (finallySection st))
  refine ⟨?_, ?_, ?_, ?_, ?_, ?_, ?_, ?_⟩
  · exact eventsExtend_trans (eventsExtend_mono (by decide) hFe)
      (eventsExtend_trans (eventsExtend_mono (by decide) hDe)
        ⟨[Event.scoreCalled], hSe, by decide⟩)
  · exact hS1.trans (hD1.trans (by rw [hFm]))
  · exact hS2.trans (hD2.trans (by rw [hFm]))
  · exact hS3.trans (hD3.trans (by rw [hFm]))
  · exact hS4.trans (hD4.trans (by rw [hFm]))
  · exact hS5.trans (hD5.trans (by rw [hFm]))
  · exact hS6.trans (hD6.trans (by rw [hFm]))
  · exact hS7.trans (hD7.trans (by rw [hFm]))

/-- Events outside the tail's own set pass through it unchanged. -/
theorem tail_mem_iff (b : EvalBehavior) (st : EvalSt) {ev : Event}
    (hev : ev ∉ [Event.cleanupCalled, Event.localCalled, Event.deployCalled, Event.scoreCalled]) :
    ev ∈ (scoreSection b (devxSection b (finallySection st))).events ↔ ev ∈ st.events :=
  eventsExtend_mem_iff (tail_frame b st).1 hev

/-- With an assigned workspace, the tail performs exactly one cleanup. -/
theorem tail_count_some (b : EvalBehavior) (st : EvalSt) (w : DockerWorkspace)
    (h : st.workspace = some w) :
    cleanupCount (scoreSection b (devxSection b (finallySection st))).events =
      cleanupCount st.events + 1 := by
  have hsc : cleanupCount (scoreSection b (devxSection b (finallySection st))).events =
      cleanupCount (devxSection b (finallySection st)).events :=
    eventsExtend_cleanupCount
      (scoreSection_extend b (devxSection b (finallySection st))) (by decide)
  have hdv : cleanupCount (devxSection b (finallySection st)).events =
      cleanupCount (finallySection st).events :=
    eventsExtend_cleanupCount (devxSection_frame b (finallySection st)).1 (by decide)
  rw [hsc, hdv, finallySection_some st w h]
  exact cleanupCount_append_cleanup st.events

/-- With no workspace, the tail performs no cleanup. -/
theorem tail_count_none (b : EvalBehavior) (st : EvalSt) (h : st.workspace = none) :
    cleanupCount (scoreSection b (devxSection b (finallySection st))).events =
      cleanupCount st.events := by
  have hsc : cleanupCount (scoreSection b (devxSection b (finallySection st))).events =
      cleanupCount (devxSection b (finallySection st)).events :=
    eventsExtend_cleanupCount
      (scoreSection_extend b (devxSection b (finallySection st))) (by decide)
  have hdv : cleanupCount (devxSection b (finallySection st)).events =
      cleanupCount (finallySection st).events :=
    eventsExtend_cleanupCount (devxSection_frame b (finallySection st)).1 (by decide)
  rw [hsc, hdv, finallySection_none st h]

/-- Frame facts for the whole post-build check sequence: only check events
are added, the workspace is kept, and the DevX score fields are untouched. -/
theorem checksAfterBuild_frame (b : EvalBehavior) (d : Bool) (st : EvalSt) :
    EventsExtend [Event.runtimeCalled, Event.typesCalled, Event.testsCalled,
      Event.dbCalled, Event.dataCalled, Event.uiCalled] st (checksAfterBuild b d st).1 ∧
    (checksAfterBuild b d st).1.workspace = st.workspace ∧
    (checksAfterBuild b d st).1.metrics.local_runability_score = st.metrics.local_runability_score ∧
    (checksAfterBuild b d st).1.metrics.deployability_score = st.metrics.deployability_score := by
  obtain ⟨hRe, hRw, _, _, _, _, _, _, _, hRl, hRd⟩ := stepRuntime_frame b st
  obtain ⟨hTe, hTw, _, _, _, _, _, _, hTl, hTd⟩ := stepTypes_frame b d (stepRuntime b st).1
  rcases ht : stepTypes b d (stepRuntime b st).1 with ⟨stT, eT⟩
  rw [ht] at hTe hTw hTl hTd
  simp only at hTe hTw hTl hTd
  cases eT with
  | some e =>
    have he : checksAfterBuild b d st = (stT, some e) := by
      rw [checksAfterBuild,
        seqE_some (show (stepTypes b d (stepRuntime b st).1).2 = some e by rw [ht])]
      rw [ht]
    rw [he]
    refine ⟨?_, hTw.trans hRw, hTl.trans hRl, hTd.trans hRd⟩
    exact eventsExtend_trans ⟨[Event.runtimeCalled], hRe, by decide⟩
      (eventsExtend_mono (by decide) hTe)
  | none =>
    have he : checksAfterBuild b d st =
        stepSemantic b (stepRuntime b st).2 (stepTests b d stT) := by
      rw [checksAfterBuild,
        seqE_none (show (stepTypes b d (stepRuntime b st).1).2 = none by rw [ht])]
      rw [ht]
    rw [he]
    obtain ⟨hSTe, hSTw, _, _, _, _, hSTl, hSTd⟩ := stepTests_frame b d stT
    obtain ⟨hSMe, hSMw, _, _, _, _, hSMl, hSMd⟩ :=
      stepSemantic_frame b (stepRuntime b st).2 (stepTests b d stT)
    refine ⟨?_, hSMw.trans (hSTw.trans (hTw.trans hRw)),
      hSMl.trans (hSTl.trans (hTl.trans hRl)),
      hSMd.trans (hSTd.trans (hTd.trans hRd))⟩
    exact eventsExtend_trans ⟨[Event.runtimeCalled], hRe, by decide⟩
      (eventsExtend_trans (eventsExtend_mono (by decide) hTe)
        (eventsExtend_trans (eventsExtend_mono (by decide) hSTe)
          (eventsExtend_mono (by decide) hSMe)))

/-- In fast mode the post-build sequence never touches the semantic checks:
only the runtime/typecheck/test events can be added and the three semantic
metric fields are untouched. -/
theorem checksAfterBuild_fast (b : EvalBehavior) (d : Bool) (st : EvalSt)
    (hf : b.fast_mode = true) :
    EventsExtend [Event.runtimeCalled, Event.typesCalled, Event.testsCalled]
      st (checksAfterBuild b d st).1 ∧
    (checksAfterBuild b d st).1.metrics.databricks_connectivity = st.metrics.databricks_connectivity ∧
    (checksAfterBuild b d st).1.metrics.data_returned = st.metrics.data_returned ∧
    (checksAfterBuild b d st).1.metrics.ui_renders = st.metrics.ui_renders := by
  obtain ⟨hRe, _, _, _, _, _, hRdb, hRda, hRui, _, _⟩ := stepRuntime_frame b st
  obtain ⟨hTe, _, _, _, _, hTdb, hTda, hTui, _, _⟩ := stepTypes_frame b d (stepRuntime b st).1
  rcases ht : stepTypes b d (stepRuntime b st).1 with ⟨stT, eT⟩
  rw [ht] at hTe hTdb hTda hTui
  simp only at hTe hTdb hTda hTui
  cases eT with
  | some e =>
    have he : checksAfterBuild b d st = (stT, some e) := by
      rw [checksAfterBuild,
        seqE_some (show (stepTypes b d (stepRuntime b st).1).2 = some e by rw [ht])]
      rw [ht]
    rw [he]
    refine ⟨?_, hTdb.trans hRdb, hTda.trans hRda, hTui.trans hRui⟩
    exact eventsExtend_trans ⟨[Event.runtimeCalled], hRe, by decide⟩
      (eventsExtend_mono (by decide) hTe)
  | none =>
    have hsem : stepSemantic b (stepRuntime b st).2 (stepTests b d stT) =
        (stepTests b d stT, none) := by
      simp [stepSemantic, hf]
    have he : checksAfterBuild b d st = (stepTests b d stT, none) := by
      rw [checksAfterBuild,
        seqE_none (show (stepTypes b d (stepRuntime b st).1).2 = none by rw [ht])]
      rw [ht, hsem]
    rw [he]
    obtain ⟨hSTe, _, _, hSTdb, hSTda, hSTui, _, _⟩ := stepTests_frame b d stT
    refine ⟨?_, hSTdb.trans (hTdb.trans hRdb), hSTda.trans (hTda.trans hRda),
      hSTui.trans (hTui.trans hRui)⟩
    exact eventsExtend_trans ⟨[Event.runtimeCalled], hRe, by decide⟩
      (eventsExtend_trans (eventsExtend_mono (by decide) hTe)
        (eventsExtend_mono (by decide) hSTe))

/-- With dependencies failed the typecheck and test steps are the identity:
the post-build sequence is just runtime followed by the semantic block. -/
theorem checksAfterBuild_depsFalse (b : EvalBehavior) (st : EvalSt) :
    checksAfterBuild b false st =
      stepSemantic b (stepRuntime b st).2 (stepRuntime b st).1 := rfl

/-- The test coverage value recorded by a successful pipeline: hypotheses fix
the typecheck call to return and the test call to return `tr`; the recorded
coverage is the parse of the combined test output. -/
theorem checksAfterBuild_coverage (b : EvalBehavior) (st : EvalSt) (tyr tr : ExecResult)
    (hty : b.typesOutcome = PyResult.ok tyr) (hte : b.testsOutcome = PyResult.ok tr) :
    (checksAfterBuild b true st).1.metrics.test_coverage_pct =
      some (parseCoverage (tr.stdout ++ tr.stderr)) := by
  have hT : stepTypes b true (stepRuntime b st).1 =
      ({ (stepRuntime b st).1 with
          events := (stepRuntime b st).1.events ++ [Event.typesCalled]
          metrics := { (stepRuntime b st).1.metrics with
                        type_safety := some (tyr.exit_code == 0) } }, none) := by
    simp [stepTypes, hty]
  rw [checksAfterBuild, hT, seqE_none rfl]
  refine ((stepSemantic_frame b _ _).2.2.2.2.1).trans ?_
  simp [stepTests, hte]

/-- The try block when workspace creation raised: only the create event, the
workspace variable stays unassigned, and the exception is propagated. -/
theorem tryBody_create_exn (b : EvalBehavior) (st0 : EvalSt) (e : String)
    (h : b.createOutcome = PyResult.exn e) :
    tryBody b st0 = ({ st0 with events := st0.events ++ [Event.createCalled] }, some e) := by
  simp [tryBody, h]

/-- Frame facts for the try block when creation succeeded: only check events
are added, the workspace variable holds the created workspace on every exit
path, and the DevX score fields are untouched. -/
theorem tryBody_frame (b : EvalBehavior) (st0 : EvalSt) (ws : DockerWorkspace)
    (h : b.createOutcome = PyResult.ok ws) :
    EventsExtend [Event.createCalled, Event.installCalled, Event.buildCalled,
      Event.runtimeCalled, Event.typesCalled, Event.testsCalled,
      Event.dbCalled, Event.dataCalled, Event.uiCalled] st0 (tryBody b st0).1 ∧
    (tryBody b st0).1.workspace = some ws ∧
    (tryBody b st0).1.metrics.local_runability_score = st0.metrics.local_runability_score ∧
    (tryBody b st0).1.metrics.deployability_score = st0.metrics.deployability_score := by
  cases hi : b.installOutcome with
  | exn e =>
    refine ⟨⟨[Event.createCalled, Event.installCalled], ?_, by decide⟩, ?_, ?_, ?_⟩ <;>
      simp [tryBody, h, hi]
  | ok ir =>
    cases hb : b.buildOutcome with
    | exn e =>
      refine ⟨⟨[Event.createCalled, Event.installCalled, Event.buildCalled], ?_, by decide⟩,
        ?_, ?_, ?_⟩ <;> simp [tryBody, h, hi, hb]
    | ok br =>
      simp only [tryBody, h, hi, hb]
      refine ⟨?_, ?_, ?_, ?_⟩
      · exact eventsExtend_trans
          ⟨[Event.createCalled, Event.installCalled, Event.buildCalled], by simp, by decide⟩
          (eventsExtend_mono (by decide) (checksAfterBuild_frame b _ _).1)
      · exact ((checksAfterBuild_frame b _ _).2.1).trans (by simp)
      · exact ((checksAfterBuild_frame b _ _).2.2.1).trans (by simp)
      · exact ((checksAfterBuild_frame b _ _).2.2.2).trans (by simp)

/-- The try block when install returned a non-zero exit and build returned:
typecheck and tests are skipped (their events absent, their metric fields
untouched) while build and runtime were invoked. -/
theorem tryBody_depsFail (b : EvalBehavior) (st0 : EvalSt) (ws : DockerWorkspace)
    (ir br : ExecResult) (h : b.createOutcome = PyResult.ok ws)
    (hi : b.installOutcome = PyResult.ok ir) (hexit : ¬ir.exit_code = 0)
    (hb : b.buildOutcome = PyResult.ok br) :
    EventsExtend [Event.createCalled, Event.installCalled, Event.buildCalled,
      Event.runtimeCalled, Event.dbCalled, Event.dataCalled, Event.uiCalled]
      st0 (tryBody b st0).1 ∧
    Event.buildCalled ∈ (tryBody b st0).1.events ∧
    Event.runtimeCalled ∈ (tryBody b st0).1.events ∧
    (tryBody b st0).1.metrics.type_safety = st0.metrics.type_safety ∧
    (tryBody b st0).1.metrics.tests_pass = st0.metrics.tests_pass ∧
    (tryBody b st0).1.metrics.test_coverage_pct = st0.metrics.test_coverage_pct ∧
    (tryBody b st0).1.metrics.has_tests = st0.metrics.has_tests := by
  have hd : (ir.exit_code == 0) = false := by
    simp only [beq_eq_false_iff_ne, ne_eq]
    exact hexit
  simp only [tryBody, h, hi, hb, hd]
  rw [checksAfterBuild_depsFalse]
  refine ⟨?_, ?_, ?_, ?_, ?_, ?_, ?_⟩
  · exact eventsExtend_trans
      ⟨[Event.createCalled, Event.installCalled, Event.buildCalled], by simp, by decide⟩
      (eventsExtend_trans ⟨[Event.runtimeCalled], (stepRuntime_frame b _).1, by decide⟩
        (eventsExtend_mono (by decide) (stepSemantic_frame b _ _).1))
  · refine eventsExtend_mem (stepSemantic_frame b _ _).1 ?_
    rw [(stepRuntime_frame b _).1]
    simp
  · refine eventsExtend_mem (stepSemantic_frame b _ _).1 ?_
    rw [(stepRuntime_frame b _).1]
    simp
  · exact ((stepSemantic_frame b _ _).2.2.1).trans
      (((stepRuntime_frame b _).2.2.1).trans (by simp))
  · exact ((stepSemantic_frame b _ _).2.2.2.1).trans
      (((stepRuntime_frame b _).2.2.2.1).trans (by simp))
  · exact ((stepSemantic_frame b _ _).2.2.2.2.1).trans
      (((stepRuntime_frame b _).2.2.2.2.1).trans (by simp))
  · exact ((stepSemantic_frame b _ _).2.2.2.2.2.1).trans
      (((stepRuntime_frame b _).2.2.2.2.2.1).trans (by simp))

/-- The try block in fast mode: the semantic events never fire and the
semantic metric fields are untouched, whatever the other calls do. -/
theorem tryBody_fast (b : EvalBehavior) (st0 : EvalSt) (hf : b.fast_mode = true) :
    EventsExtend [Event.createCalled, Event.installCalled, Event.buildCalled,
      Event.runtimeCalled, Event.typesCalled, Event.testsCalled] st0 (tryBody b st0).1 ∧
    (tryBody b st0).1.metrics.databricks_connectivity = st0.metrics.databricks_connectivity ∧
    (tryBody b st0).1.metrics.data_returned = st0.metrics.data_returned ∧
    (tryBody b st0).1.metrics.ui_renders = st0.metrics.ui_renders := by
  cases h : b.createOutcome with
  | exn e =>
    rw [tryBody_create_exn b st0 e h]
    exact ⟨⟨[Event.createCalled], by simp, by decide⟩, by simp, by simp, by simp⟩
  | ok ws =>
    cases hi : b.installOutcome with
    | exn e =>
      refine ⟨⟨[Event.createCalled, Event.installCalled], ?_, by decide⟩, ?_, ?_, ?_⟩ <;>
        simp [tryBody, h, hi]
    | ok ir =>
      cases hb : b.buildOutcome with
      | exn e =>
        refine ⟨⟨[Event.createCalled, Event.installCalled, Event.buildCalled], ?_, by decide⟩,
          ?_, ?_, ?_⟩ <;> simp [tryBody, h, hi, hb]
      | ok br =>
        simp only [tryBody, h, hi, hb]
        refine ⟨?_, ?_, ?_, ?_⟩
        · exact eventsExtend_trans
            ⟨[Event.createCalled, Event.installCalled, Event.buildCalled], by simp, by decide⟩
            (eventsExtend_mono (by decide) (checksAfterBuild_fast b _ _ hf).1)
        · exact ((checksAfterBuild_fast b _ _ hf).2.1).trans (by simp)
        · exact ((checksAfterBuild_fast b _ _ hf).2.2.1).trans (by simp)
        · exact ((checksAfterBuild_fast b _ _ hf).2.2.2).trans (by simp)

/-- The coverage recorded by the try block on the successful-install path. -/
theorem tryBody_coverage (b : EvalBehavior) (st0 : EvalSt) (ws : DockerWorkspace)
    (ir br tyr tr : ExecResult) (h : b.createOutcome = PyResult.ok ws)
    (hi : b.installOutcome = PyResult.ok ir) (hie : ir.exit_code = 0)
    (hb : b.buildOutcome = PyResult.ok br) (hty : b.typesOutcome = PyResult.ok tyr)
    (hte : b.testsOutcome = PyResult.ok tr) :
    (tryBody b st0).1.metrics.test_coverage_pct =
      some (parseCoverage (tr.stdout ++ tr.stderr)) := by
  have hd : (ir.exit_code == 0) = true := by
    simp [hie]
  simp only [tryBody, h, hi, hb, hd]
  exact checksAfterBuild_coverage b _ tyr tr hty hte

/-- The Docker short-circuit condition is false when the claim's
non-docker-short-circuit hypothesis holds. -/
theorem notDocker_cond (b : EvalBehavior)
    (hnd : ¬(b.template = "unknown" ∧ b.hasDockerfile = true)) :
    (b.template == "unknown" && b.hasDockerfile) = false := by
  by_cases h1 : b.template = "unknown"
  · have h2 : b.hasDockerfile = false := by
      cases h : b.hasDockerfile
      · rfl
      · exact absurd ⟨h1, h⟩ hnd
    simp [h2]
  · have h3 : (b.template == "unknown") = false := beq_eq_false_iff_ne.mpr h1
    simp [h3]

/-- `evaluate_app_docker` outside the Docker short-circuit: events and
metrics come from the tail applied to the merged try-block state. -/
theorem evaluate_unfold (b : EvalBehavior)
    (hc : (b.template == "unknown" && b.hasDockerfile) = false) :
    (evaluate_app_docker b).events =
      (scoreSection b (devxSection b (finallySection (exceptMerge (tryBody b (initSt b)))))).events ∧
    (evaluate_app_docker b).result.metrics =
      (scoreSection b (devxSection b (finallySection (exceptMerge (tryBody b (initSt b)))))).metrics := by
  rw [evaluate_app_docker, if_neg (by simp [hc])]
  exact ⟨rfl, rfl⟩

/-- Claim C7: for an unknown template with a Dockerfile, `evaluate_app_docker`
returns immediately: no sandbox, no checks, no cleanup (empty trace),
template_type "docker", exactly one issue, and every other metric field
null. -/
theorem c7_docker_short_circuit (b : EvalBehavior)
    (h1 : b.template = "unknown") (h2 : b.hasDockerfile = true) :
    evaluate_app_docker b =
      { result := { app_name := b.app_name, app_dir := b.app_dir, timestamp := b.timestamp,
                    metrics := { template_type := "docker" },
                    issues := ["Docker-only apps not yet supported"], details := [] },
        events := [] } ∧
    (evaluate_app_docker b).events = [] ∧
    (evaluate_app_docker b).result.metrics.template_type = "docker" ∧
    (evaluate_app_docker b).result.issues = ["Docker-only apps not yet supported"] ∧
    (evaluate_app_docker b).result.metrics.build_success = none ∧
    (evaluate_app_docker b).result.metrics.build_time_sec = none ∧
    (evaluate_app_docker b).result.metrics.runtime_success = none ∧
    (evaluate_app_docker b).result.metrics.startup_time_sec = none ∧
    (evaluate_app_docker b).result.metrics.type_safety = none ∧
    (evaluate_app_docker b).result.metrics.tests_pass = none ∧
    (evaluate_app_docker b).result.metrics.test_coverage_pct = none ∧
    (evaluate_app_docker b).result.metrics.has_tests = none ∧
    (evaluate_app_docker b).result.metrics.databricks_connectivity = none ∧
    (evaluate_app_docker b).result.metrics.data_returned = none ∧
    (evaluate_app_docker b).result.metrics.ui_renders = none ∧
    (evaluate_app_docker b).result.metrics.local_runability_score = none ∧
    (evaluate_app_docker b).result.metrics.deployability_score = none ∧
    (evaluate_app_docker b).result.metrics.has_dockerfile = none ∧
    (evaluate_app_docker b).result.metrics.appeval_100 = none := by
  have hc : (b.template == "unknown" && b.hasDockerfile) = true := by
    simp [h1, h2]
  simp [evaluate_app_docker, hc]

/-- Witness for C7 at a concrete behavior with an unknown template and a
Dockerfile. -/
theorem c7_docker_short_circuit_witness :
    (evaluate_app_docker { okBehavior with template := "unknown", hasDockerfile := true }).events = [] ∧
    (evaluate_app_docker { okBehavior with template := "unknown", hasDockerfile := true }).result.metrics.template_type = "docker" ∧
    (evaluate_app_docker { okBehavior with template := "unknown", hasDockerfile := true }).result.issues = ["Docker-only apps not yet supported"] :=
  ⟨(c7_docker_short_circuit { okBehavior with template := "unknown", hasDockerfile := true } rfl rfl).2.1,
   (c7_docker_short_circuit { okBehavior with template := "unknown", hasDockerfile := true } rfl rfl).2.2.1,
   (c7_docker_short_circuit { okBehavior with template := "unknown", hasDockerfile := true } rfl rfl).2.2.2.1⟩

/-- Claim C8: with fast_mode on, the connectivity, data-validity and UI
checks are never invoked and their metric fields stay null, whatever the
other calls do. -/
theorem c8_fast_mode_skips (b : EvalBehavior) (hf : b.fast_mode = true) :
    Event.dbCalled ∉ (evaluate_app_docker b).events ∧
    Event.dataCalled ∉ (evaluate_app_docker b).events ∧
    Event.uiCalled ∉ (evaluate_app_docker b).events ∧
    (evaluate_app_docker b).result.metrics.databricks_connectivity = none ∧
    (evaluate_app_docker b).result.metrics.data_returned = none ∧
    (evaluate_app_docker b).result.metrics.ui_renders = none := by
  by_cases hdock : (b.template == "unknown" && b.hasDockerfile) = true
  · simp [evaluate_app_docker, hdock]
  · have hc : (b.template == "unknown" && b.hasDockerfile) = false := by
      revert hdock
      cases b.template == "unknown" && b.hasDockerfile <;> simp
    obtain ⟨hev, hmet⟩ := evaluate_unfold b hc
    obtain ⟨hTBe, hTB1, hTB2, hTB3⟩ := tryBody_fast b (initSt b) hf
    have hEM := exceptMerge_frame (tryBody b (initSt b))
    refine ⟨?_, ?_, ?_, ?_, ?_, ?_⟩
    · rw [hev, @tail_mem_iff b (exceptMerge (tryBody b (initSt b))) Event.dbCalled (by decide),
        hEM.1, @eventsExtend_mem_iff _ _ _ hTBe Event.dbCalled (by decide)]
      simp [initSt]
    · rw [hev, @tail_mem_iff b (exceptMerge (tryBody b (initSt b))) Event.dataCalled (by decide),
        hEM.1, @eventsExtend_mem_iff _ _ _ hTBe Event.dataCalled (by decide)]
      simp [initSt]
    · rw [hev, @tail_mem_iff b (exceptMerge (tryBody b (initSt b))) Event.uiCalled (by decide),
        hEM.1, @eventsExtend_mem_iff _ _ _ hTBe Event.uiCalled (by decide)]
      simp [initSt]
    · rw [hmet, (tail_frame b (exceptMerge (tryBody b (initSt b)))).2.2.2.2.2.1,
        hEM.2.1, hTB1]
      rfl
    · rw [hmet, (tail_frame b (exceptMerge (tryBody b (initSt b)))).2.2.2.2.2.2.1,
        hEM.2.1, hTB2]
      rfl
    · rw [hmet, (tail_frame b (exceptMerge (tryBody b (initSt b)))).2.2.2.2.2.2.2,
        hEM.2.1, hTB3]
      rfl

/-- Witness for C8 at a concrete fast-mode behavior whose semantic oracles
would all have succeeded. -/
theorem c8_fast_mode_skips_witness :
    Event.dbCalled ∉ (evaluate_app_docker { okBehavior with fast_mode := true }).events ∧
    Event.dataCalled ∉ (evaluate_app_docker { okBehavior with fast_mode := true }).events ∧
    Event.uiCalled ∉ (evaluate_app_docker { okBehavior with fast_mode := true }).events ∧
    (evaluate_app_docker { okBehavior with fast_mode := true }).result.metrics.databricks_connectivity = none ∧
    (evaluate_app_docker { okBehavior with fast_mode := true }).result.metrics.data_returned = none ∧
    (evaluate_app_docker { okBehavior with fast_mode := true }).result.metrics.ui_renders = none :=
  c8_fast_mode_skips { okBehavior with fast_mode := true } rfl

/-- Claim C4: when install.sh exits non-zero (and the build call returns),
the typecheck and test steps are not executed, their four metric fields stay
null, and the build and runtime checks are still attempted. -/
theorem c4_deps_gate (b : EvalBehavior) (ws : DockerWorkspace) (ir br : ExecResult)
    (hnd : ¬(b.template = "unknown" ∧ b.hasDockerfile = true))
    (h : b.createOutcome = PyResult.ok ws) (hi : b.installOutcome = PyResult.ok ir)
    (hexit : ¬ir.exit_code = 0) (hb : b.buildOutcome = PyResult.ok br) :
    Event.buildCalled ∈ (evaluate_app_docker b).events ∧
    Event.runtimeCalled ∈ (evaluate_app_docker b).events ∧
    Event.typesCalled ∉ (evaluate_app_docker b).events ∧
    Event.testsCalled ∉ (evaluate_app_docker b).events ∧
    (evaluate_app_docker b).result.metrics.type_safety = none ∧
    (evaluate_app_docker b).result.metrics.tests_pass = none ∧
    (evaluate_app_docker b).result.metrics.test_coverage_pct = none ∧
    (evaluate_app_docker b).result.metrics.has_tests = none := by
  obtain ⟨hev, hmet⟩ := evaluate_unfold b (notDocker_cond b hnd)
  obtain ⟨hTBe, hTBb, hTBr, hTB1, hTB2, hTB3, hTB4⟩ :=
    tryBody_depsFail b (initSt b) ws ir br h hi hexit hb
  have hEM := exceptMerge_frame (tryBody b (initSt b))
  refine ⟨?_, ?_, ?_, ?_, ?_, ?_, ?_, ?_⟩
  · rw [hev, @tail_mem_iff b (exceptMerge (tryBody b (initSt b))) Event.buildCalled (by decide),
      hEM.1]
    exact hTBb
  · rw [hev, @tail_mem_iff b (exceptMerge (tryBody b (initSt b))) Event.runtimeCalled (by decide),
      hEM.1]
    exact hTBr
  · rw [hev, @tail_mem_iff b (exceptMerge (tryBody b (initSt b))) Event.typesCalled (by decide),
      hEM.1, @eventsExtend_mem_iff _ _ _ hTBe Event.typesCalled (by decide)]
    simp [initSt]
  · rw [hev, @tail_mem_iff b (exceptMerge (tryBody b (initSt b))) Event.testsCalled (by decide),
      hEM.1, @eventsExtend_mem_iff _ _ _ hTBe Event.testsCalled (by decide)]
    simp [initSt]
  · rw [hmet, (tail_frame b (exceptMerge (tryBody b (initSt b)))).2.1, hEM.2.1, hTB1]
    rfl
  · rw [hmet, (tail_frame b (exceptMerge (tryBody b (initSt b)))).2.2.1, hEM.2.1, hTB2]
    rfl
  · rw [hmet, (tail_frame b (exceptMerge (tryBody b (initSt b)))).2.2.2.1, hEM.2.1, hTB3]
    rfl
  · rw [hmet, (tail_frame b (exceptMerge (tryBody b (initSt b)))).2.2.2.2.1, hEM.2.1, hTB4]
    rfl

/-- Witness for C4 at a concrete behavior whose install exits 1. -/
theorem c4_deps_gate_witness :
    Event.buildCalled ∈ (evaluate_app_docker { okBehavior with
      installOutcome := PyResult.ok { exit_code := 1, stdout := "", stderr := "npm err" } }).events ∧
    Event.runtimeCalled ∈ (evaluate_app_docker { okBehavior with
      installOutcome := PyResult.ok { exit_code := 1, stdout := "", stderr := "npm err" } }).events ∧
    Event.typesCalled ∉ (evaluate_app_docker { okBehavior with
      installOutcome := PyResult.ok { exit_code := 1, stdout := "", stderr := "npm err" } }).events ∧
    Event.testsCalled ∉ (evaluate_app_docker { okBehavior with
      installOutcome := PyResult.ok { exit_code := 1, stdout := "", stderr := "npm err" } }).events ∧
    (evaluate_app_docker { okBehavior with
      installOutcome := PyResult.ok { exit_code := 1, stdout := "", stderr := "npm err" } }).result.metrics.type_safety = none ∧
    (evaluate_app_docker { okBehavior with
      installOutcome := PyResult.ok { exit_code := 1, stdout := "", stderr := "npm err" } }).result.metrics.tests_pass = none ∧
    (evaluate_app_docker { okBehavior with
      installOutcome := PyResult.ok { exit_code := 1, stdout := "", stderr := "npm err" } }).result.metrics.test_coverage_pct = none ∧
    (evaluate_app_docker { okBehavior with
      installOutcome := PyResult.ok { exit_code := 1, stdout := "", stderr := "npm err" } }).result.metrics.has_tests = none :=
  c4_deps_gate { okBehavior with
      installOutcome := PyResult.ok { exit_code := 1, stdout := "", stderr := "npm err" } }
    { container_id := "cid", container_name := "cn" }
    { exit_code := 1, stdout := "", stderr := "npm err" }
    { exit_code := 0, stdout := "", stderr := "" }
    (by decide) rfl rfl (by decide) rfl

/-- Claim C1: outside the Docker short-circuit, `evaluate_app_docker` runs
cleanup exactly once whenever workspace creation returned, and never when
creation raised before assigning the workspace; `DockerWorkspace.cleanup`
itself never raises; and in `DockerWorkspace.create`, a failing in-container
setup command cleans up the freshly started container exactly once before
the RuntimeError propagates. -/
theorem c1_cleanup_exactly_once (b : EvalBehavior)
    (hnd : ¬(b.template = "unknown" ∧ b.hasDockerfile = true)) :
    (∀ ws, b.createOutcome = PyResult.ok ws →
      cleanupCount (evaluate_app_docker b).events = 1) ∧
    (∀ e, b.createOutcome = PyResult.exn e →
      cleanupCount (evaluate_app_docker b).events = 0) ∧
    (∀ o : SubprocessOutcome, DockerWorkspace.cleanup o = none) ∧
    (∀ (name : String) (port : Nat) (hex out err : String) (setup : SubprocessOutcome),
      setup.exitCode ≠ 0 →
      (DockerWorkspace.create name port hex
          { runOutcome := SubprocessOutcome.completed 0 out err, setupOutcome := setup }).2 =
        [CreateEvent.containerStarted, CreateEvent.cleanupCalled] ∧
      ∃ msg, (DockerWorkspace.create name port hex
          { runOutcome := SubprocessOutcome.completed 0 out err, setupOutcome := setup }).1 =
        PyResult.exn msg) := by
  obtain ⟨hev, _⟩ := evaluate_unfold b (notDocker_cond b hnd)
  refine ⟨?_, ?_, ?_, ?_⟩
  · intro ws h
    rw [hev]
    have hW : (exceptMerge (tryBody b (initSt b))).workspace = some ws := by
      rw [(exceptMerge_frame (tryBody b (initSt b))).2.2]
      exact (tryBody_frame b (initSt b) ws h).2.1
    rw [tail_count_some b (exceptMerge (tryBody b (initSt b))) ws hW]
    have hz : cleanupCount (exceptMerge (tryBody b (initSt b))).events = 0 := by
      rw [(exceptMerge_frame (tryBody b (initSt b))).1,
        eventsExtend_cleanupCount (tryBody_frame b (initSt b) ws h).1 (by decide)]
      rfl
    rw [hz]
  · intro e h
    rw [hev]
    have hW : (exceptMerge (tryBody b (initSt b))).workspace = none := by
      rw [(exceptMerge_frame (tryBody b (initSt b))).2.2, tryBody_create_exn b (initSt b) e h]
      rfl
    rw [tail_count_none b (exceptMerge (tryBody b (initSt b))) hW,
      (exceptMerge_frame (tryBody b (initSt b))).1, tryBody_create_exn b (initSt b) e h]
    rfl
  · intro o
    cases o <;> rfl
  · intro name port hex out err setup hso
    cases setup with
    | completed rc2 o2 e2 =>
      have hne : ¬rc2 = 0 := by
        simpa [SubprocessOutcome.exitCode] using hso
      constructor
      · simp [DockerWorkspace.create, DockerWorkspace.exec, hne]
      · exact ⟨"Failed to install dependencies: " ++ e2,
          by simp [DockerWorkspace.create, DockerWorkspace.exec, hne]⟩
    | timedOut =>
      constructor
      · simp [DockerWorkspace.create, DockerWorkspace.exec]
      · exact ⟨"Failed to install dependencies: " ++
            ("Command timed out after " ++ toString 300 ++ "s"),
          by simp [DockerWorkspace.create, DockerWorkspace.exec]⟩

/-- Witness for C1: a fully successful run cleans up once; a failed creation
cleans up zero times; cleanup never raises; a failed setup command inside
create cleans up the started container before raising. -/
theorem c1_cleanup_exactly_once_witness :
    cleanupCount (evaluate_app_docker okBehavior).events = 1 ∧
    cleanupCount (evaluate_app_docker
      { okBehavior with createOutcome := PyResult.exn "docker down" }).events = 0 ∧
    DockerWorkspace.cleanup SubprocessOutcome.timedOut = none ∧
    (DockerWorkspace.create "app1" 8000 "abc123"
        { runOutcome := SubprocessOutcome.completed 0 "cid" "",
          setupOutcome := SubprocessOutcome.completed 1 "" "apk failed" }).2 =
      [CreateEvent.containerStarted, CreateEvent.cleanupCalled] :=
  ⟨(c1_cleanup_exactly_once okBehavior (by decide)).1
      { container_id := "cid", container_name := "cn" } rfl,
   (c1_cleanup_exactly_once { okBehavior with createOutcome := PyResult.exn "docker down" }
      (by decide)).2.1 "docker down" rfl,
   (c1_cleanup_exactly_once okBehavior (by decide)).2.2.1 SubprocessOutcome.timedOut,
   ((c1_cleanup_exactly_once okBehavior (by decide)).2.2.2 "app1" 8000 "abc123" "cid" ""
      (SubprocessOutcome.completed 1 "" "apk failed") (by decide)).1⟩

/-- Claim C5 (amended): outside the Docker short-circuit the DevX block is
always attempted (the local-runability call fires even when creation or every
check failed), and when the local call returns the deployability call fires
too; but the two are wrapped in a single handler, so an exception in the
local-runability call prevents the deployability call (its event absent, its
score still null). -/
theorem c5_devx_single_wrapper (b : EvalBehavior)
    (hnd : ¬(b.template = "unknown" ∧ b.hasDockerfile = true)) :
    Event.localCalled ∈ (evaluate_app_docker b).events ∧
    (∀ lp : Nat × String, b.localOutcome = PyResult.ok lp →
      Event.deployCalled ∈ (evaluate_app_docker b).events) ∧
    (∀ e, b.localOutcome = PyResult.exn e →
      Event.deployCalled ∉ (evaluate_app_docker b).events ∧
      (evaluate_app_docker b).result.metrics.deployability_score = none) := by
  obtain ⟨hev, hmet⟩ := evaluate_unfold b (notDocker_cond b hnd)
  refine ⟨?_, ?_, ?_⟩
  · rw [hev]
    exact eventsExtend_mem
      (scoreSection_extend b (devxSection b (finallySection (exceptMerge (tryBody b (initSt b))))))
      (devxSection_frame b (finallySection (exceptMerge (tryBody b (initSt b))))).2.1
  · intro lp hl
    rw [hev]
    refine eventsExtend_mem
      (scoreSection_extend b (devxSection b (finallySection (exceptMerge (tryBody b (initSt b)))))) ?_
    rw [devxSection_ok_events b (finallySection (exceptMerge (tryBody b (initSt b)))) lp hl]
    simp
  · intro e hl
    constructor
    · rw [hev]
      have hn : Event.deployCalled ∉
          (finallySection (exceptMerge (tryBody b (initSt b)))).events := by
        rw [@eventsExtend_mem_iff _ _ _
            (finallySection_frame (exceptMerge (tryBody b (initSt b)))).1
            Event.deployCalled (by decide),
          (exceptMerge_frame (tryBody b (initSt b))).1]
        cases hco : b.createOutcome with
        | exn e2 =>
          rw [tryBody_create_exn b (initSt b) e2 hco]
          simp [initSt]
        | ok ws =>
          rw [@eventsExtend_mem_iff _ _ _ (tryBody_frame b (initSt b) ws hco).1
              Event.deployCalled (by decide)]
          simp [initSt]
      rw [@eventsExtend_mem_iff _ _ _
          (scoreSection_extend b (devxSection b (finallySection (exceptMerge (tryBody b (initSt b))))))
          Event.deployCalled (by decide),
        devxSection_exn b (finallySection (exceptMerge (tryBody b (initSt b)))) e hl]
      simp [hn]
    · rw [hmet,
        (scoreSection_frame b (devxSection b (finallySection (exceptMerge (tryBody b (initSt b)))))).2.2.2.2.2.2.2.2.2.2,
        devxSection_exn b (finallySection (exceptMerge (tryBody b (initSt b)))) e hl]
      have hfm : (finallySection (exceptMerge (tryBody b (initSt b)))).metrics =
          (exceptMerge (tryBody b (initSt b))).metrics :=
        (finallySection_frame (exceptMerge (tryBody b (initSt b)))).2.1
      show (finallySection (exceptMerge (tryBody b (initSt b)))).metrics.deployability_score = none
      rw [hfm, (exceptMerge_frame (tryBody b (initSt b))).2.1]
      cases hco : b.createOutcome with
      | exn e2 =>
        rw [tryBody_create_exn b (initSt b) e2 hco]
        rfl
      | ok ws =>
        rw [(tryBody_frame b (initSt b) ws hco).2.2.2]
        rfl

/-- Counterexample for C5 as stated: at a concrete behavior where the
local-runability call raises while the deployability call would have
returned, the deployability score is never attempted. -/
theorem c5_counterexample :
    { okBehavior with localOutcome := PyResult.exn "boom" }.deployOutcome = PyResult.ok (5, "ok") ∧
    Event.deployCalled ∉
      (evaluate_app_docker { okBehavior with localOutcome := PyResult.exn "boom" }).events ∧
    (evaluate_app_docker { okBehavior with
      localOutcome := PyResult.exn "boom" }).result.metrics.deployability_score = none := by
  refine ⟨rfl, ?_, ?_⟩ <;> decide

/-- Witness for C5 (amended) at a fully successful behavior. -/
theorem c5_devx_single_wrapper_witness :
    Event.localCalled ∈ (evaluate_app_docker okBehavior).events ∧
    Event.deployCalled ∈ (evaluate_app_docker okBehavior).events :=
  ⟨(c5_devx_single_wrapper okBehavior (by decide)).1,
   (c5_devx_single_wrapper okBehavior (by decide)).2.1 (5, "ok") rfl⟩

/-- The coverage line of the spec parses to 83.4, via the decidable parsing
stage. -/
theorem covLine_val : coverageOfLine covLine = some (pyFloatVal (834, 1, 0)) := by
  have h1 : (substrList ("all files".data) (pyLower covLine) &&
      substrList ("%".data) covLine) = true := by decide
  have h2 : splitOnChar '|' covLine =
      [['A', 'l', 'l', ' ', 'f', 'i', 'l', 'e', 's', ' '],
       [' ', '8', '3', '.', '4', ' ', '%', ' '], []] := by decide
  have h3 : pyFloatParts ((pyStrip [' ', '8', '3', '.', '4', ' ', '%', ' ']).filter
      (fun c => c != '%')) = some (834, 1, 0) := by decide
  simp only [coverageOfLine, h1, if_true, h2]
  norm_num [pyFloat, h3]

/-- Claim C9: on the successful-install path the recorded coverage is the
parse of the combined test output; the spec's sample line parses to 83.4; and
an output whose lines all fail to parse (malformed or missing coverage line)
yields 0 without any exception (the parse is a total function). -/
theorem c9_coverage_parse (b : EvalBehavior) (ws : DockerWorkspace) (ir br tyr tr : ExecResult)
    (hnd : ¬(b.template = "unknown" ∧ b.hasDockerfile = true))
    (h : b.createOutcome = PyResult.ok ws) (hi : b.installOutcome = PyResult.ok ir)
    (hie : ir.exit_code = 0) (hb : b.buildOutcome = PyResult.ok br)
    (hty : b.typesOutcome = PyResult.ok tyr) (hte : b.testsOutcome = PyResult.ok tr) :
    (evaluate_app_docker b).result.metrics.test_coverage_pct =
      some (parseCoverage (tr.stdout ++ tr.stderr)) ∧
    parseCoverage "All files | 83.4 % |" = (83.4 : Rat) ∧
    (∀ output : String, (∀ line ∈ splitOnChar '\n' output.data, coverageOfLine line = none) →
      parseCoverage output = 0) := by
  refine ⟨?_, ?_, ?_⟩
  · obtain ⟨hev, hmet⟩ := evaluate_unfold b (notDocker_cond b hnd)
    rw [hmet, (tail_frame b (exceptMerge (tryBody b (initSt b)))).2.2.2.1,
      (exceptMerge_frame (tryBody b (initSt b))).2.1,
      tryBody_coverage b (initSt b) ws ir br tyr tr h hi hie hb hty hte]
  · have hdata : "All files | 83.4 % |".data = covLine := by decide
    have hsplit : splitOnChar '\n' covLine = [covLine] := by decide
    rw [parseCoverage, hdata, hsplit]
    simp only [List.foldl_cons, List.foldl_nil, covLine_val, Option.getD_some]
    norm_num [pyFloatVal]
  · intro output hnone
    have haux : ∀ (l : List (List Char)) (r : Rat),
        (∀ x ∈ l, coverageOfLine x = none) →
        l.foldl (fun acc line => (coverageOfLine line).getD acc) r = r := by
      intro l
      induction l with
      | nil => intro r _; rfl
      | cons a t ih =>
        intro r hall
        rw [List.foldl_cons, hall a (by simp), Option.getD_none]
        exact ih r fun x hx => hall x (by simp [hx])
    rw [parseCoverage]
    exact haux _ 0 hnone

/-- Witness for C9 at a concrete behavior whose test output is the spec's
sample coverage line. -/
theorem c9_coverage_parse_witness :
    (evaluate_app_docker okBehavior).result.metrics.test_coverage_pct =
      some (parseCoverage ("All files | 83.4 % |" ++ "")) ∧
    parseCoverage "All files | 83.4 % |" = (83.4 : Rat) :=
  ⟨(c9_coverage_parse okBehavior { container_id := "cid", container_name := "cn" }
      { exit_code := 0, stdout := "", stderr := "" }
      { exit_code := 0, stdout := "", stderr := "" }
      { exit_code := 0, stdout := "", stderr := "" }
      { exit_code := 0, stdout := "All files | 83.4 % |", stderr := "" }
      (by decide) rfl rfl rfl rfl rfl rfl).1,
   (c9_coverage_parse okBehavior { container_id := "cid", container_name := "cn" }
      { exit_code := 0, stdout := "", stderr := "" }
      { exit_code := 0, stdout := "", stderr := "" }
      { exit_code := 0, stdout := "", stderr := "" }
      { exit_code := 0, stdout := "All files | 83.4 % |", stderr := "" }
      (by decide) rfl rfl rfl rfl rfl rfl).2.1⟩

end Klaudbiusz
